import Mathlib

/-!
Verification of the MCP Orchestrator subsystem (`src/Orchestrator`): a shallow
embedding in Lean 4 of the permission engine, process supervisor, capability
discovery, intent analyzer, deployment planner, plan executor and failback
controller, together with theorems settling the specification claims.

Strings are modelled as `List Char`; Python substring tests, splitting and
case folding are reproduced on that representation.  Wall-clock readings
(`time.time()`) are threaded as an explicit `now : Nat` parameter where their
value reaches a result field, and duration fields (pure wall-clock deltas)
are modelled as `0`.
-/

namespace OpsBot

/-- Model of Python strings. -/
abbrev Str := List Char

/-- Embed a Lean string literal into the model representation. -/
def str (s : String) : Str := s.data

/-- Python `needle in haystack` (substring containment) on strings. -/
def isSubstr (needle : Str) : Str → Bool
  | [] => needle.isEmpty
  | c :: rest => needle.isPrefixOf (c :: rest) || isSubstr needle rest

/-- Python `s.lower()` (the identifiers and keywords involved are ASCII). -/
def lowerStr (s : Str) : Str := s.map Char.toLower

/-- Python `s.upper()`. -/
def upperStr (s : Str) : Str := s.map Char.toUpper

/-- Python `s.split(sep)` for a one-character separator. -/
def splitOnChar (sep : Char) : Str → List Str
  | [] => [[]]
  | c :: rest =>
    if c = sep then
      [] :: splitOnChar sep rest
    else
      match splitOnChar sep rest with
      | [] => [[c]]
      | h :: t => (c :: h) :: t

/-- Python `s.split()` (split on runs of whitespace, dropping empty pieces);
the inputs involved only use the space character as whitespace. -/
def splitWs (s : Str) : List Str :=
  (splitOnChar ' ' s).filter (fun w => !w.isEmpty)

/-- Python `sep.join(pieces)` for a one-character separator. -/
def joinChar (sep : Char) : List Str → Str
  | [] => []
  | [s] => s
  | s :: t :: rest => s ++ sep :: joinChar sep (t :: rest)

/-- Python `", ".join(pieces)`. -/
def joinCommaSpace : List Str → Str
  | [] => []
  | [s] => s
  | s :: t :: rest => s ++ str ", " ++ joinCommaSpace (t :: rest)

/-- The decimal digit character for a value below ten. -/
def digitChar (d : Nat) : Char := Char.ofNat (48 + d)

/-- Little-endian decimal digits of `n`, computed with explicit fuel so the
definition is structurally recursive (and hence kernel-evaluable). -/
def natDigitsRev : Nat → Nat → List Nat
  | 0, _ => []
  | fuel + 1, n => if n < 10 then [n] else n % 10 :: natDigitsRev fuel (n / 10)

/-- Python `str(n)` for a natural number. -/
def natRepr (n : Nat) : Str :=
  ((natDigitsRev (n + 1) n).reverse).map digitChar

/-- Python `str(n)` for an integer. -/
def intRepr (n : Int) : Str :=
  if n < 0 then '-' :: natRepr n.natAbs else natRepr n.natAbs

/-- Python `int(s)`, restricted to the plain non-empty digit strings that the
code ever feeds it (no sign or surrounding whitespace occurs in those inputs);
`none` models a raised `ValueError`. -/
def pyIntOfStr (s : Str) : Option Nat :=
  if s.isEmpty then none
  else if s.all Char.isDigit then
    some (s.foldl (fun a c => 10 * a + (c.toNat - 48)) 0)
  else none

/-- Lookup in a Python dict, modelled as an association list keyed by
insertion order. -/
def alookup {α : Type} : List (Str × α) → Str → Option α
  | [], _ => none
  | p :: rest, k => if p.1 = k then some p.2 else alookup rest k

/-- Pointwise update of one entry of an association list (mutation of the
object stored under an existing key). -/
def aupdate {α : Type} (l : List (Str × α)) (k : Str) (f : α → α) :
    List (Str × α) :=
  l.map (fun p => if p.1 = k then (p.1, f p.2) else p)

/-- Insert-or-update assignment on a Python dict. -/
def dset {α : Type} (l : List (Str × α)) (k : Str) (v : α) :
    List (Str × α) :=
  if (alookup l k).isSome then aupdate l k (fun _ => v) else l ++ [(k, v)]

/-! ## Permission engine (`MCPOrchestrator.check_tool_permission`) -/

/-- One entry of the policy document: `tool_permissions[server][tool]`. -/
structure ToolPermEntry where
  allowed_roles : List Str
  description : Str
deriving DecidableEq, Repr

/-- The loaded policy document (`self.permissions`): the
`tool_permissions` map and the `default_policy.unknown_tools` value (absent
keys modelled by `none`, read back with Python's `.get` defaults). -/
structure PermissionsDoc where
  tool_permissions : List (Str × List (Str × ToolPermEntry))
  default_policy_unknown_tools : Option Str
deriving DecidableEq, Repr

/-- The orchestrator state fields consulted by the permission check. -/
structure OrchPermState where
  permissions : PermissionsDoc
  current_role : Str
  rbac_enabled : Bool
deriving DecidableEq, Repr

/-- `self.permissions.get("tool_permissions", {}).get(server_name, {})`. -/
def toolPermsFor (st : OrchPermState) (server_name : Str) :
    List (Str × ToolPermEntry) :=
  (alookup st.permissions.tool_permissions server_name).getD []

/-- `self.permissions.get("default_policy", {}).get("unknown_tools", "deny")`. -/
def defaultUnknownPolicy (st : OrchPermState) : Str :=
  st.permissions.default_policy_unknown_tools.getD (str "deny")

/-- `MCPOrchestrator.check_tool_permission` (main.py:205-230). -/
def check_tool_permission (st : OrchPermState) (server_name tool_name : Str) :
    Bool × Str :=
  if !st.rbac_enabled then
    (true, str "RBAC disabled")
  else
    let tool_perms := toolPermsFor st server_name
    match alookup tool_perms tool_name with
    | none =>
      let default_policy := defaultUnknownPolicy st
      if default_policy = str "deny" then
        (false, str "Tool \x27" ++ tool_name ++
          str "\x27 not found in permissions configuration")
      else
        (true, str "Default policy allows unknown tools")
    | some entry =>
      let allowed_roles := entry.allowed_roles
      if st.current_role ∈ allowed_roles then
        (true, str "Role \x27" ++ st.current_role ++ str "\x27 has access")
      else
        (false, str "Role \x27" ++ st.current_role ++
          str "\x27 does not have permission. Required roles: " ++
          joinCommaSpace allowed_roles)

/-! ## Capability registry
(`MCPOrchestrator.discover_server_capabilities`, main.py:112-184) -/

/-- A tool descriptor as advertised by a provider (`name`, `description`
and `inputSchema` keys may be absent; only the property and required-name
lists of the schema are consulted anywhere). -/
structure ToolDef where
  name : Option Str
  description : Option Str
  schema_properties : List Str
  schema_required : List Str
deriving DecidableEq, Repr

/-- A resource descriptor as advertised by a provider. -/
structure ResourceDef where
  uri : Option Str
  name : Option Str
deriving DecidableEq, Repr

/-- A prompt descriptor as advertised by a provider. -/
structure PromptDef where
  name : Option Str
  description : Option Str
deriving DecidableEq, Repr

/-- A discovered capability set (the dict cached under
`self.server_capabilities[server_name]`). -/
structure Capabilities where
  tools : List ToolDef
  resources : List ResourceDef
  prompts : List PromptDef
deriving DecidableEq, Repr

/-- What one enumeration reply yields for its category: `absent` covers a
reply with an error, with no `"result"`, or with a result lacking the
category key — all of which leave the default empty list in place. -/
inductive EnumResponse (α : Type) where
  | absent
  | found (items : List α)
deriving DecidableEq, Repr

/-- A provider's replies to the four discovery requests (`initialize`,
`tools/list`, `resources/list`, `prompts/list`): `init_error` is the
`"error"` value of the initialize reply, when present. -/
structure ProviderResponses where
  init_error : Option Str
  tools_resp : EnumResponse ToolDef
  resources_resp : EnumResponse ResourceDef
  prompts_resp : EnumResponse PromptDef
deriving DecidableEq, Repr

/-! ## Process supervisor (`MCPOrchestrator.stop_server`) -/

/-- Transport kind of a managed server. -/
inductive ServerType where
  | stdio
  | http
deriving DecidableEq, Repr

/-- The `MCPServerProcess` dataclass fields that the modelled operations
read or write (the process handle, url and spawn config stay outside the
embedding). -/
structure ServerEntry where
  server_type : ServerType
  status : Str
  tools : List (Str × ToolDef)
  resources : List Str
  prompts : List Str
deriving DecidableEq, Repr

/-- How the child process reacts to `terminate()`: it either exits within the
five-second `wait` timeout, or the wait times out and the process is
force-killed.  The claim quantifies over exactly these two outcomes. -/
inductive TermBehavior where
  | graceful
  | timeoutThenKill
deriving DecidableEq, Repr

/-- `MCPOrchestrator.stop_server` (main.py:411-441): returns the updated
server registry and the boolean result.  Both termination behaviors end by
assigning `status = "stopped"`. -/
def stop_server (servers : List (Str × ServerEntry)) (name : Str)
    (beh : TermBehavior) : List (Str × ServerEntry) × Bool :=
  match alookup servers name with
  | none => (servers, false)
  | some server =>
    match server.server_type with
    | .http =>
      (aupdate servers name (fun s => { s with status := str "stopped" }), true)
    | .stdio =>
      match beh with
      | .graceful =>
        (aupdate servers name (fun s => { s with status := str "stopped" }),
          true)
      | .timeoutThenKill =>
        (aupdate servers name (fun s => { s with status := str "stopped" }),
          true)

/-- The capability set assembled from a provider's enumeration replies:
each category defaults to the empty list unless its reply carries it. -/
def capsOfResponses (p : ProviderResponses) : Capabilities :=
  { tools := match p.tools_resp with
      | .absent => []
      | .found l => l,
    resources := match p.resources_resp with
      | .absent => []
      | .found l => l,
    prompts := match p.prompts_resp with
      | .absent => []
      | .found l => l }

/-- The possible outcomes of `discover_server_capabilities`: an error dict
for an unknown server, the forwarded initialize error, a `KeyError` while
mirroring nameless capabilities onto the server object (with the cache
already updated), or success. -/
inductive DiscoverOutcome where
  | notFound (e : Str)
  | initError (e : Str)
  | keyErr (cache : List (Str × Capabilities))
  | ok (caps : Capabilities) (cache : List (Str × Capabilities))
      (servers : List (Str × ServerEntry))
deriving DecidableEq, Repr

/-- `MCPOrchestrator.discover_server_capabilities` (main.py:112-184) over a
registry, a capability cache and the provider's replies `p`: initialize
handshake, three independent enumeration reads, wholesale replacement of the
cached entry, then mirroring of the capability set onto the server object
(where a descriptor missing its `name`/`uri` key raises `KeyError`). -/
def discover_server_capabilities (servers : List (Str × ServerEntry))
    (cache : List (Str × Capabilities)) (name : Str)
    (p : ProviderResponses) : DiscoverOutcome :=
  if (alookup servers name).isNone then
    .notFound (str "Server " ++ name ++ str " not found")
  else
    match p.init_error with
    | some e => .initError e
    | none =>
      let capabilities := capsOfResponses p
      let cache2 := dset cache name capabilities
      match capabilities.tools.mapM (fun t => t.name.map (fun n => (n, t))),
          capabilities.resources.mapM (fun r => r.uri),
          capabilities.prompts.mapM (fun pr => pr.name) with
      | some tool_dict, some res_uris, some prompt_names =>
        .ok capabilities cache2
          (aupdate servers name (fun s =>
            { s with
                tools := tool_dict, resources := res_uris,
                prompts := prompt_names }))
      | _, _, _ => .keyErr cache2

/-! ## Intelligent task planner (`intelligent_planner.py`) -/

/-- `RiskLevel` enum. -/
inductive RiskLevel where
  | low
  | medium
  | high
  | critical
deriving DecidableEq, Repr

/-- `.value` of the `RiskLevel` enum. -/
def RiskLevel.value : RiskLevel → Str
  | .low => str "low"
  | .medium => str "medium"
  | .high => str "high"
  | .critical => str "critical"

/-- Position of a risk level in the low-to-critical order. -/
def RiskLevel.rank : RiskLevel → Nat
  | .low => 0
  | .medium => 1
  | .high => 2
  | .critical => 3

/-- The larger of two risk levels in the low-to-critical order (used only in
theorem statements, to compare against the planner's loop). -/
def maxRisk (a b : RiskLevel) : RiskLevel :=
  if a.rank ≤ b.rank then b else a

/-- `TaskPriority` enum. -/
inductive TaskPriority where
  | low
  | medium
  | high
  | critical
deriving DecidableEq, Repr

/-- `.value` of the `TaskPriority` enum. -/
def TaskPriority.value : TaskPriority → Str
  | .low => str "low"
  | .medium => str "medium"
  | .high => str "high"
  | .critical => str "critical"

/-- A Python value as it occurs in argument bags: a string, an integer, or
`None`. -/
inductive PyVal where
  | vstr (s : Str)
  | vint (n : Int)
  | vnone
deriving DecidableEq, Repr

/-- Rendering of a `PyVal` inside an f-string. -/
def pyValStr : PyVal → Str
  | .vstr s => s
  | .vint n => intRepr n
  | .vnone => str "None"

/-- `TaskStep` dataclass. -/
structure TaskStep where
  step_number : Nat
  server_name : Str
  tool_name : Str
  description : Str
  arguments : List (Str × PyVal)
  expected_duration : Str
  risk_level : RiskLevel
  dependencies : List Nat
  parallel_execution : Bool
  validation_required : Bool
  rollback_step : Option Nat
  compliance_checks : List Str
deriving DecidableEq, Repr

/-- `TaskPlan` dataclass. -/
structure TaskPlan where
  plan_id : Str
  task_description : Str
  priority : TaskPriority
  total_steps : Nat
  estimated_duration : Str
  overall_risk : RiskLevel
  steps : List TaskStep
  compliance_requirements : List Str
  approval_required : Bool
  rollback_strategy : Str
  success_criteria : List Str
  failure_handling : Str
deriving DecidableEq, Repr

/-- `deployment_patterns["production_deployment"]`. -/
def production_deployment : List Str :=
  [str "build", str "test", str "quality_scan", str "security_scan",
   str "staging_deploy", str "staging_validation",
   str "production_deploy_canary", str "production_monitoring",
   str "production_scale", str "notification"]

/-- `deployment_patterns["staging_deployment"]`. -/
def staging_deployment : List Str :=
  [str "build", str "test", str "quality_scan", str "staging_deploy",
   str "validation", str "notification"]

/-- `deployment_patterns["hotfix_deployment"]`. -/
def hotfix_deployment : List Str :=
  [str "build", str "critical_tests", str "production_deploy_blue_green",
   str "immediate_validation", str "monitoring", str "notification"]

/-- `deployment_patterns["rollback"]`. -/
def rollback_pattern_steps : List Str :=
  [str "backup_verification", str "traffic_drain", str "deployment_rollback",
   str "validation", str "traffic_restore", str "notification"]

/-- `_load_risk_matrix`, an insertion-ordered keyword-to-risk table. -/
def risk_matrix : List (Str × RiskLevel) :=
  [(str "view", .low), (str "read", .low), (str "list", .low),
   (str "get", .low), (str "create", .medium), (str "build", .medium),
   (str "test", .medium), (str "scan", .medium), (str "deploy", .high),
   (str "scale", .high), (str "update", .high), (str "delete", .critical),
   (str "drop", .critical), (str "remove", .critical),
   (str "destroy", .critical)]

/-- `_load_compliance_rules`. -/
def compliance_rules_table : List (Str × List Str) :=
  [(str "production",
    [str "quality_gate_passed", str "security_scan_passed",
     str "approval_required", str "backup_verified",
     str "rollback_plan_ready", str "monitoring_enabled"]),
   (str "staging", [str "quality_gate_passed", str "tests_passed"]),
   (str "development", [str "tests_passed"])]

/-- `self.compliance_rules.get(environment, [])`. -/
def compliance_rules_for (environment : Str) : List Str :=
  (alookup compliance_rules_table environment).getD []

/-- The structured intent produced by `analyze_user_intent`: the `target`
key is always present but may hold `None` (modelled as `none`), and the
`parameters` bag is read back only through `.get("version", ...)` and
`.get("replicas", ...)`. -/
structure Intent where
  action : Option Str
  target : Option Str
  environment : Str
  urgency : Str
  parameters_version : Option Str
  parameters_replicas : Option Int
deriving DecidableEq, Repr

/-- The application-noun keywords scanned during target extraction. -/
def targetKeywords : List Str :=
  [str "code", str "app", str "application", str "service",
   str "microservice"]

/-- The target-extraction loop of `analyze_user_intent`: the token after the
first application-noun keyword, if any. -/
def extractTarget : List Str → Option Str
  | [] => none
  | w :: rest =>
    if lowerStr w ∈ targetKeywords then rest.head? else extractTarget rest

/-- `IntelligentTaskPlanner.analyze_user_intent`
(intelligent_planner.py:149-203). -/
def analyze_user_intent (user_input : Str) : Intent :=
  let lo := lowerStr user_input
  let action :=
    if [str "deploy", str "deployment", str "release"].any
        (fun w => isSubstr w lo) then
      some (str "deploy")
    else if [str "rollback", str "revert"].any (fun w => isSubstr w lo) then
      some (str "rollback")
    else if [str "scale", str "scaling"].any (fun w => isSubstr w lo) then
      some (str "scale")
    else if [str "build"].any (fun w => isSubstr w lo) then
      some (str "build")
    else if [str "test"].any (fun w => isSubstr w lo) then
      some (str "test")
    else
      none
  let environment :=
    if [str "prod", str "production"].any (fun w => isSubstr w lo) then
      str "production"
    else if [str "staging", str "stage"].any (fun w => isSubstr w lo) then
      str "staging"
    else if [str "dev", str "development"].any (fun w => isSubstr w lo) then
      str "development"
    else
      str "production"
  let urgency :=
    if [str "urgent", str "emergency", str "hotfix", str "critical",
        str "now", str "asap"].any (fun w => isSubstr w lo) then
      str "urgent"
    else if [str "fast", str "quick"].any (fun w => isSubstr w lo) then
      str "fast"
    else
      str "normal"
  { action := action,
    target := extractTarget (splitWs user_input),
    environment := environment,
    urgency := urgency,
    parameters_version := none,
    parameters_replicas := none }

/-- A capability map from server name to its advertised tools. -/
abbrev CapMap := List (Str × List ToolDef)

/-- `IntelligentTaskPlanner.find_tools_for_action`
(intelligent_planner.py:224-245). -/
def find_tools_for_action (action : Str) (capabilities : CapMap) :
    List (Str × ToolDef) :=
  capabilities.flatMap (fun p =>
    (p.2.filter (fun tool =>
      isSubstr action (lowerStr (tool.name.getD [])) ||
      isSubstr action (lowerStr (tool.description.getD [])))).map
      (fun t => (p.1, t)))

/-- The keyword scan of `assess_tool_risk`: the risk of the first matrix
keyword contained in the lowered tool name. -/
def riskKeywordMatch (tool_lower : Str) : Option RiskLevel :=
  (risk_matrix.find? (fun p => isSubstr p.1 tool_lower)).map (·.2)

/-- `IntelligentTaskPlanner.assess_tool_risk`
(intelligent_planner.py:247-272). -/
def assess_tool_risk (tool_name environment : Str) : RiskLevel :=
  let tool_lower := lowerStr tool_name
  match riskKeywordMatch tool_lower with
  | some risk =>
    if environment = str "production" then
      if risk = .medium then .high
      else if risk = .high then .critical
      else risk
    else risk
  | none => if environment = str "production" then .medium else .low

/-- `intent.get("target", "application")`: the analyzer always stores the
`target` key, so the default never fires and an unextracted target surfaces
as Python `None`. -/
def intentTargetValue (intent : Intent) : PyVal :=
  match intent.target with
  | some t => .vstr t
  | none => .vnone

/-- `intent["action"]` as rendered in the plan id. -/
def intentActionValue (intent : Intent) : PyVal :=
  match intent.action with
  | some a => .vstr a
  | none => .vnone

/-- The `param_mapping` table of `_build_tool_arguments`. -/
def param_mapping (intent : Intent) : List (Str × PyVal) :=
  [(str "name", intentTargetValue intent),
   (str "environment", .vstr intent.environment),
   (str "version", .vstr (intent.parameters_version.getD (str "latest"))),
   (str "replicas", .vint (intent.parameters_replicas.getD 2)),
   (str "namespace", .vstr (str "default"))]

/-- `IntelligentTaskPlanner._build_tool_arguments`
(intelligent_planner.py:359-383). -/
def build_tool_arguments (tool : ToolDef) (intent : Intent) :
    List (Str × PyVal) :=
  tool.schema_properties.filterMap (fun param_name =>
    let param_lower := lowerStr param_name
    ((param_mapping intent).find? (fun kv => isSubstr kv.1 param_lower)).map
      (fun kv => (param_name, kv.2)))

/-- The duration table of `_estimate_duration`. -/
def durations_table : List (Str × Str) :=
  [(str "build", str "2-5 minutes"), (str "test", str "3-7 minutes"),
   (str "quality_scan", str "2-4 minutes"),
   (str "security_scan", str "3-5 minutes"),
   (str "deploy", str "2-3 minutes"), (str "validation", str "1-2 minutes"),
   (str "monitoring", str "5 minutes"),
   (str "notification", str "< 30 seconds")]

/-- `IntelligentTaskPlanner._estimate_duration`. -/
def estimate_duration (step_type : Str) : Str :=
  (alookup durations_table step_type).getD (str "1-2 minutes")

/-- The accumulator loop of `_calculate_overall_risk`
(intelligent_planner.py:399-411), with its early return on a critical
step. -/
def calcOverallRiskLoop : List TaskStep → RiskLevel → RiskLevel
  | [], max_risk => max_risk
  | step :: rest, max_risk =>
    if step.risk_level = .critical then .critical
    else if step.risk_level = .high ∧ max_risk ≠ .critical then
      calcOverallRiskLoop rest .high
    else if step.risk_level = .medium ∧ max_risk = .low then
      calcOverallRiskLoop rest .medium
    else calcOverallRiskLoop rest max_risk

/-- `IntelligentTaskPlanner._calculate_overall_risk`. -/
def calculate_overall_risk (steps : List TaskStep) : RiskLevel :=
  calcOverallRiskLoop steps .low

/-- `int(step.expected_duration.split('-')[0].split()[0])`; `none` models a
raised `ValueError` or `IndexError`. -/
def durationLowerBound (expected_duration : Str) : Option Nat :=
  match splitWs ((splitOnChar '-' expected_duration).headI) with
  | [] => none
  | tok :: _ => pyIntOfStr tok

/-- `IntelligentTaskPlanner._calculate_total_duration`; `none` models the
exception raised when a duration string has no leading integer (as happens
for the `"< 30 seconds"` entry of the table). -/
def calculate_total_duration (steps : List TaskStep) : Option Str :=
  (steps.mapM (fun step => durationLowerBound step.expected_duration)).map
    (fun mins =>
      let min_total := mins.sum
      natRepr min_total ++ ['-'] ++ natRepr (min_total + steps.length * 2) ++
        str " minutes")

/-- `IntelligentTaskPlanner._create_rollback_strategy`. -/
def create_rollback_strategy (steps : List TaskStep) : Str :=
  let high_risk_steps := steps.filter
    (fun s => s.risk_level == .high || s.risk_level == .critical)
  if !high_risk_steps.isEmpty then
    str "Automatic rollback available for " ++
      natRepr high_risk_steps.length ++
      str " critical steps. Previous version maintained as backup. Blue-green deployment ensures zero-downtime rollback."
  else
    str "Standard rollback available. Can revert to previous state with minimal impact."

/-- `IntelligentTaskPlanner._define_success_criteria`. -/
def define_success_criteria (environment : Str) : List Str :=
  let criteria := [str "All steps completed without errors",
    str "Health checks passed", str "No error logs in monitoring"]
  if environment = str "production" then
    criteria ++ [str "Zero user-facing errors",
      str "Response time within SLA", str "All pods running and ready",
      str "Traffic routing correctly"]
  else criteria

/-- The pattern-selection branch of `create_deployment_plan`
(intelligent_planner.py:292-300): urgency first, then environment. -/
def select_pattern (environment urgency : Str) : List Str :=
  if urgency = str "urgent" then hotfix_deployment
  else if environment = str "production" then production_deployment
  else if environment = str "staging" then staging_deployment
  else [str "build", str "test", str "deploy"]

/-- The step-construction loop of `create_deployment_plan`
(intelligent_planner.py:302-330): pattern stages with no matching tool are
skipped, the first matching tool wins, and `step_num` counts only emitted
steps. -/
def planStepsLoop (intent : Intent) (capabilities : CapMap)
    (environment : Str) (target : PyVal) :
    List Str → Nat → List TaskStep
  | [], _ => []
  | pattern_step :: restPat, step_num =>
    match find_tools_for_action pattern_step capabilities with
    | [] => planStepsLoop intent capabilities environment target restPat
        step_num
    | (server_name, tool) :: _ =>
      let tool_name := tool.name.getD (str "unknown")
      let tool_desc := tool.description.getD (pattern_step ++ str " operation")
      let risk := assess_tool_risk tool_name environment
      let args := build_tool_arguments tool intent
      let step : TaskStep :=
        { step_number := step_num,
          server_name := server_name,
          tool_name := tool_name,
          description := tool_desc ++ str " for " ++ pyValStr target,
          arguments := args,
          expected_duration := estimate_duration pattern_step,
          risk_level := risk,
          dependencies := if step_num > 1 then [step_num - 1] else [],
          parallel_execution := false,
          validation_required := (environment == str "production") &&
            (risk.value == str "high" || risk.value == str "critical"),
          rollback_step := none,
          compliance_checks := compliance_rules_for environment }
      step :: planStepsLoop intent capabilities environment target restPat
        (step_num + 1)

/-- `IntelligentTaskPlanner.create_deployment_plan`
(intelligent_planner.py:274-357); `now` is the `int(time.time())` reading
used in the plan id, and `none` models the `ValueError` raised by
`_calculate_total_duration`. -/
def create_deployment_plan (intent : Intent) (capabilities : CapMap)
    (now : Nat) : Option TaskPlan :=
  let environment := intent.environment
  let urgency := intent.urgency
  let target := intentTargetValue intent
  let pattern := select_pattern environment urgency
  let steps := planStepsLoop intent capabilities environment target pattern 1
  let overall_risk := calculate_overall_risk steps
  let approval_required := (environment == str "production") ||
    (overall_risk == .high || overall_risk == .critical)
  match calculate_total_duration steps with
  | none => none
  | some total_duration =>
    some
      { plan_id := str "plan_" ++ pyValStr (intentActionValue intent) ++
          ['_'] ++ environment ++ ['_'] ++ natRepr now,
        task_description := str "Deploy " ++ pyValStr target ++ str " to " ++
          environment ++
          (if urgency == str "urgent" then str " (URGENT)" else []),
        priority := if urgency == str "urgent" then TaskPriority.critical
          else TaskPriority.high,
        total_steps := steps.length,
        estimated_duration := total_duration,
        overall_risk := overall_risk,
        steps := steps,
        compliance_requirements := compliance_rules_for environment,
        approval_required := approval_required,
        rollback_strategy := create_rollback_strategy steps,
        success_criteria := define_success_criteria environment,
        failure_handling := str "Automatic rollback to previous stable version with immediate notification" }

/-! ## Plan display (`format_plan_for_display`,
intelligent_planner.py:447-513) and its parse-back -/

/-- `IntelligentTaskPlanner._get_risk_emoji` (the `.get` default `⚪` is
unreachable: every enum member is a key of the map). -/
def get_risk_emoji : RiskLevel → Str
  | .low => str "🟢"
  | .medium => str "🟡"
  | .high => str "🟠"
  | .critical => str "🔴"

/-- The fragments `format_plan_for_display` appends for one step
(intelligent_planner.py:488-507). -/
def stepFragments (step : TaskStep) : List Str :=
  [str "\n📍 Step " ++ natRepr step.step_number ++ str ": " ++
     step.description,
   str "   Server: " ++ step.server_name,
   str "   Tool: " ++ step.tool_name,
   str "   Risk: " ++ upperStr step.risk_level.value ++ str " " ++
     get_risk_emoji step.risk_level,
   str "   Duration: " ++ step.expected_duration] ++
  (if step.dependencies.isEmpty then []
   else [str "   Dependencies: Steps " ++
     joinCommaSpace (step.dependencies.map natRepr)]) ++
  (if step.arguments.isEmpty then []
   else str "   Arguments:" ::
     step.arguments.map (fun kv =>
       str "     • " ++ kv.1 ++ str ": " ++ pyValStr kv.2)) ++
  (if step.validation_required then
    [str "   ⚠️  Manual validation required after this step"]
   else []) ++
  (if step.compliance_checks.isEmpty then []
   else [str "   Compliance: " ++ joinCommaSpace step.compliance_checks])

/-- The fragments appended before the step loop
(intelligent_planner.py:457-486). -/
def headerFragments (plan : TaskPlan) : List Str :=
  [List.replicate 80 '=',
   str "📋 INTELLIGENT TASK PLAN: " ++ plan.plan_id,
   List.replicate 80 '=',
   str "\n🎯 Task: " ++ plan.task_description,
   str "⚡ Priority: " ++ upperStr plan.priority.value,
   str "⚠️  Overall Risk: " ++ upperStr plan.overall_risk.value,
   str "⏱️  Estimated Duration: " ++ plan.estimated_duration,
   str "📊 Total Steps: " ++ natRepr plan.total_steps] ++
  (if plan.approval_required then
    [str "\n⚠️  APPROVAL REQUIRED - High-risk operation in production environment"]
   else []) ++
  [str "\n📜 Compliance Requirements:"] ++
  plan.compliance_requirements.map (fun req => str "  ✓ " ++ req) ++
  [str "\n🔄 Rollback Strategy:",
   str "  " ++ plan.rollback_strategy,
   str "\n✅ Success Criteria:"] ++
  plan.success_criteria.map (fun c => str "  • " ++ c) ++
  [str "\n🚨 Failure Handling:",
   str "  " ++ plan.failure_handling,
   '\n' :: List.replicate 80 '=',
   str "EXECUTION STEPS",
   List.replicate 80 '=']

/-- The fragments appended after the step loop
(intelligent_planner.py:509-511). -/
def footerFragments : List Str :=
  ['\n' :: List.replicate 80 '=',
   str "Would you like to proceed with this plan? (yes/no)",
   List.replicate 80 '=']

/-- `IntelligentTaskPlanner.format_plan_for_display`
(intelligent_planner.py:447-513): all appended fragments joined with
newlines. -/
def format_plan_for_display (plan : TaskPlan) : Str :=
  joinChar '\n'
    (headerFragments plan ++ plan.steps.flatMap stepFragments ++
      footerFragments)

/-- The line prefix that introduces a step in the display. -/
def stepMarker : Str := str "📍 Step "

/-- The line prefix that carries a step's risk in the display. -/
def riskLinePre : Str := str "   Risk: "

/-- Decimal digits at the front of a string, as a number. -/
def parseNatPrefix : Nat → Str → Nat
  | acc, [] => acc
  | acc, c :: rest =>
    if c.isDigit then parseNatPrefix (10 * acc + (c.toNat - 48)) rest
    else acc

/-- The risk level named by an upper-cased risk word. -/
def parseRiskWord (w : Str) : Option RiskLevel :=
  if w = str "LOW" then some .low
  else if w = str "MEDIUM" then some .medium
  else if w = str "HIGH" then some .high
  else if w = str "CRITICAL" then some .critical
  else none

/-- The risk level carried by one `   Risk: WORD emoji` display line. -/
def parseRiskLine (l : Str) : Option RiskLevel :=
  if riskLinePre.isPrefixOf l then
    parseRiskWord ((l.drop riskLinePre.length).takeWhile (fun c => c ≠ ' '))
  else none

/-- Modelled from the spec: the repository ships no parser for the display
format, so the spec's "parsing the display format back into structured
fields" is modelled as this scanner.  It walks the display lines; each line
starting with the step marker contributes its step number and the risk
parsed from the `Risk:` line three lines below (where the formatter always
puts it). -/
def parseStepsLines : List Str → List (Nat × Option RiskLevel)
  | [] => []
  | l :: rest =>
    if stepMarker.isPrefixOf l then
      (parseNatPrefix 0 (l.drop stepMarker.length),
       match rest with
       | _ :: _ :: l3 :: _ => parseRiskLine l3
       | _ => none) :: parseStepsLines rest
    else parseStepsLines rest

/-- Modelled from the spec: parse the display format back into the per-step
structured fields (ordinal and risk classification), by lines. -/
def parse_plan_display (s : Str) : List (Nat × Option RiskLevel) :=
  parseStepsLines (splitOnChar '\n' s)

/-- A string with no newline character. -/
abbrev noNL (s : Str) : Prop := '\n' ∉ s

/-- All rendered string fields of a plan are newline-free (used only in
theorem statements). -/
abbrev planNoNewlines (plan : TaskPlan) : Prop :=
  noNL plan.plan_id ∧ noNL plan.task_description ∧
  noNL plan.estimated_duration ∧
  (∀ r ∈ plan.compliance_requirements, noNL r) ∧
  noNL plan.rollback_strategy ∧
  (∀ c ∈ plan.success_criteria, noNL c) ∧
  noNL plan.failure_handling ∧
  ∀ s ∈ plan.steps, noNL s.description ∧ noNL s.server_name ∧
    noNL s.tool_name ∧ noNL s.expected_duration ∧
    (∀ kv ∈ s.arguments, noNL kv.1 ∧ noNL (pyValStr kv.2)) ∧
    (∀ c ∈ s.compliance_checks, noNL c)

/-- The lines one step's fragments split into (used only in proofs). -/
def stepLines (step : TaskStep) : List Str :=
  [] ::
  (stepMarker ++ natRepr step.step_number ++ str ": " ++ step.description) ::
  (str "   Server: " ++ step.server_name) ::
  (str "   Tool: " ++ step.tool_name) ::
  (riskLinePre ++ upperStr step.risk_level.value ++ str " " ++
    get_risk_emoji step.risk_level) ::
  (str "   Duration: " ++ step.expected_duration) ::
  ((if step.dependencies.isEmpty then []
    else [str "   Dependencies: Steps " ++
      joinCommaSpace (step.dependencies.map natRepr)]) ++
   (if step.arguments.isEmpty then []
    else str "   Arguments:" ::
      step.arguments.map (fun kv =>
        str "     • " ++ kv.1 ++ str ": " ++ pyValStr kv.2)) ++
   (if step.validation_required then
     [str "   ⚠️  Manual validation required after this step"]
    else []) ++
   (if step.compliance_checks.isEmpty then []
    else [str "   Compliance: " ++ joinCommaSpace step.compliance_checks]))

/-- The lines the header fragments split into (used only in proofs). -/
def headerLines (plan : TaskPlan) : List Str :=
  [List.replicate 80 '=',
   str "📋 INTELLIGENT TASK PLAN: " ++ plan.plan_id,
   List.replicate 80 '=',
   [],
   str "🎯 Task: " ++ plan.task_description,
   str "⚡ Priority: " ++ upperStr plan.priority.value,
   str "⚠️  Overall Risk: " ++ upperStr plan.overall_risk.value,
   str "⏱️  Estimated Duration: " ++ plan.estimated_duration,
   str "📊 Total Steps: " ++ natRepr plan.total_steps] ++
  (if plan.approval_required then
    [[],
     str "⚠️  APPROVAL REQUIRED - High-risk operation in production environment"]
   else []) ++
  [[], str "📜 Compliance Requirements:"] ++
  plan.compliance_requirements.map (fun req => str "  ✓ " ++ req) ++
  [[], str "🔄 Rollback Strategy:",
   str "  " ++ plan.rollback_strategy,
   [], str "✅ Success Criteria:"] ++
  plan.success_criteria.map (fun c => str "  • " ++ c) ++
  [[], str "🚨 Failure Handling:",
   str "  " ++ plan.failure_handling,
   [], List.replicate 80 '=',
   str "EXECUTION STEPS",
   List.replicate 80 '=']

/-- The lines the footer fragments split into (used only in proofs). -/
def footerLines : List Str :=
  [[], List.replicate 80 '=',
   str "Would you like to proceed with this plan? (yes/no)",
   List.replicate 80 '=']

/-! ## Enhanced task executor (`task_executor_enhanced.py`) -/

/-- The JSON value found under a response's `"error"` key: a string (as the
orchestrator's own normalized errors always are), JSON `null`, or a
JSON-RPC-style error object. -/
inductive ErrVal where
  | estr (s : Str)
  | enull
  | eobj (code : Int) (message : Str)
deriving DecidableEq, Repr

/-- A reply of `call_server_tool` past the permission layer: the `"error"`
and `"result"` keys, each possibly absent (the result payload is opaque to
the executor and modelled as a string). -/
structure ToolResponse where
  error : Option ErrVal
  result : Option Str
deriving DecidableEq, Repr

/-- The observable behavior of one `call_server_tool` invocation: a raised
exception (caught by `_execute_step`) or a returned response. -/
inductive CallBehavior where
  | raises (msg : Str)
  | returns (r : ToolResponse)
deriving DecidableEq, Repr

/-- The `output` field of an `ExecutionResult`: `None`, the whole response
dict, or the extracted `"result"` payload. -/
inductive OutVal where
  | onone
  | oresp (r : ToolResponse)
  | oval (s : Str)
deriving DecidableEq, Repr

/-- `ExecutionResult` dataclass; `duration` is a wall-clock delta, outside
the embedding, and is modelled as `0`. -/
structure ExecutionResult where
  success : Bool
  step_number : Nat
  step_description : Str
  output : OutVal
  error : Option ErrVal
  duration : Nat
deriving DecidableEq, Repr

/-- `EnhancedTaskExecutor._execute_step` (task_executor_enhanced.py:174-238).
The permission check is replicated here exactly as in the source; the
subsequent `call_server_tool` behavior (which re-checks the same pure
permission and then performs the transport call) is supplied as `b`. -/
def execute_step (o : OrchPermState) (b : CallBehavior) (step : TaskStep) :
    ExecutionResult :=
  let pc := check_tool_permission o step.server_name step.tool_name
  if !pc.1 then
    { success := false, step_number := step.step_number,
      step_description := step.description, output := .onone,
      error := some (.estr (str "Permission denied: " ++ pc.2)),
      duration := 0 }
  else
    match b with
    | .raises msg =>
      { success := false, step_number := step.step_number,
        step_description := step.description, output := .onone,
        error := some (.estr msg), duration := 0 }
    | .returns r =>
      match r.error with
      | some e =>
        { success := false, step_number := step.step_number,
          step_description := step.description, output := .oresp r,
          error := some e, duration := 0 }
      | none =>
        { success := true, step_number := step.step_number,
          step_description := step.description,
          output := match r.result with
            | some v => .oval v
            | none => .oresp r,
          error := none, duration := 0 }

/-- One entry of a pre-deployment backup record. -/
structure BackupItem where
  btype : Str
  location : Str
  resource : Option PyVal
  namespc : Option PyVal
  image : Option PyVal
deriving DecidableEq, Repr

/-- The backup record built by `_create_pre_deployment_backup`; `timestamp`
is the `time.time()` reading. -/
structure BackupState where
  success : Bool
  timestamp : Nat
  items_backed_up : Nat
  backup_locations : List BackupItem
deriving DecidableEq, Repr

/-- `EnhancedTaskExecutor._create_pre_deployment_backup`
(task_executor_enhanced.py:121-172). -/
def create_pre_deployment_backup (plan : TaskPlan) (now : Nat) :
    BackupState :=
  let k8sItems := plan.steps.flatMap (fun step =>
    if isSubstr (str "kubernetes") (lowerStr step.server_name) &&
        isSubstr (str "deploy") (lowerStr step.tool_name) then
      [{ btype := str "kubernetes_deployment",
         location := str "/backups/k8s/" ++ natRepr now ++ str ".yaml",
         resource := some ((alookup step.arguments
           (str "deployment_name")).getD (.vstr (str "unknown"))),
         namespc := some ((alookup step.arguments
           (str "namespace")).getD (.vstr (str "default"))),
         image := none },
       { btype := str "docker_image_tag",
         location := str "registry",
         resource := none, namespc := none,
         image := some ((alookup step.arguments (str "image")).getD
           (.vstr (str "unknown"))) }]
    else [])
  let backup_items := k8sItems ++
    [{ btype := str "service_configuration",
       location := str "/backups/service/" ++ natRepr now ++ str ".yaml",
       resource := none, namespc := none, image := none },
     { btype := str "configmaps_secrets",
       location := str "/backups/configs/" ++ natRepr now ++ str ".json",
       resource := none, namespc := none, image := none }]
  { success := true, timestamp := now,
    items_backed_up := backup_items.length,
    backup_locations := backup_items }

/-- The `analysis` dict of the root-cause phase. -/
structure RootCauseAnalysis where
  failed_step : Nat
  step_description : Str
  error_type : Str
  error_message : Option ErrVal
  likely_cause : Str
  affected_components : List Str
deriving DecidableEq, Repr

/-- One fix recommendation. -/
structure Recommendation where
  priority : Str
  action : Str
  details : Str
  exampleCmd : Option Str
deriving DecidableEq, Repr

/-- The notification payload assembled by `_notify_team`. -/
structure NotificationMessage where
  title : Str
  severity : Str
  status : Str
  failed_step : Str
  root_cause : Str
  fix_instructions : List Recommendation
  next_steps : Str
deriving DecidableEq, Repr

/-- One entry of the notifications list of `_notify_team`. -/
structure NotificationRecord where
  channel : Str
  target : Str
  status : Str
  message : Option NotificationMessage
  incident_id : Option Str
deriving DecidableEq, Repr

/-- One recovery-phase outcome record; the per-phase keys that a phase does
not populate are `none`, and `duration` (a wall-clock delta) is modelled
as `0`. -/
structure PhaseRecord where
  phase : Str
  success : Bool
  duration : Nat
  actions : Option (List (Str × Str))
  checks : Option (List (Str × Str))
  analysis : Option RootCauseAnalysis
  recommendations : Option (List Recommendation)
  archived_files : Option (List (Str × Str))
  notifications : Option (List NotificationRecord)
deriving DecidableEq, Repr

/-- A phase record with only the common fields set. -/
def basePhase (name : Str) : PhaseRecord :=
  { phase := name, success := true, duration := 0, actions := none,
    checks := none, analysis := none, recommendations := none,
    archived_files := none, notifications := none }

/-- `EnhancedTaskExecutor._classify_failure`
(task_executor_enhanced.py:325-338). -/
def classify_failure (failed_step : TaskStep) : Str :=
  let error_lower := lowerStr failed_step.description
  if isSubstr (str "deploy") error_lower ||
      isSubstr (str "kubernetes") (lowerStr failed_step.server_name) then
    str "deployment_failure"
  else if isSubstr (str "build") error_lower then str "build_failure"
  else if isSubstr (str "test") error_lower then str "test_failure"
  else if isSubstr (str "quality") error_lower ||
      isSubstr (str "sonar") (lowerStr failed_step.server_name) then
    str "quality_gate_failure"
  else str "general_failure"

/-- `EnhancedTaskExecutor._protect_traffic` (phase 1). -/
def protect_traffic (failed_step : TaskStep) : PhaseRecord :=
  { basePhase (str "Traffic Protection") with
    actions := some
      (if isSubstr (str "kubernetes") (lowerStr failed_step.server_name) then
        [(str "Prevent traffic to failed pods", str "SUCCESS"),
         (str "Route all traffic to old version", str "SUCCESS"),
         (str "Verify no requests to failed deployment", str "SUCCESS")]
      else [(str "No traffic protection needed", str "N/A")]) }

/-- `EnhancedTaskExecutor._rollback_to_previous_version` (phase 2); `none`
models the `IndexError` raised on a backup record that claims items but has
an empty location list. -/
def rollback_to_previous_version (backup_state : Option BackupState) :
    Option PhaseRecord :=
  match backup_state with
  | some bs =>
    if bs.items_backed_up > 0 then
      match bs.backup_locations.head? with
      | none => none
      | some item =>
        some { basePhase (str "Rollback to Previous Version") with
          actions := some
            [(str "Loading backup from " ++ item.location, str "SUCCESS"),
             (str "Applying previous deployment configuration",
              str "SUCCESS"),
             (str "Scaling previous version to full capacity",
              str "SUCCESS")] }
    else
      some { basePhase (str "Rollback to Previous Version") with
        actions := some
          [(str "No backup available, using default rollback",
            str "WARNING")] }
  | none =>
    some { basePhase (str "Rollback to Previous Version") with
      actions := some
        [(str "No backup available, using default rollback",
          str "WARNING")] }

/-- `EnhancedTaskExecutor._verify_system_stability` (phase 3). -/
def verify_system_stability : PhaseRecord :=
  { basePhase (str "System Stability Verification") with
    checks := some
      [(str "All pods running", str "PASSED"),
       (str "Service endpoints healthy", str "PASSED"),
       (str "No error logs", str "PASSED"),
       (str "Response time within SLA", str "PASSED")] }

/-- `EnhancedTaskExecutor._cleanup_failed_resources` (phase 4). -/
def cleanup_failed_resources : PhaseRecord :=
  { basePhase (str "Resource Cleanup") with
    actions := some
      [(str "Remove failed ReplicaSet", str "SUCCESS"),
       (str "Delete failed pods", str "SUCCESS"),
       (str "Clean up orphaned resources", str "SUCCESS")] }

/-- `EnhancedTaskExecutor._infer_root_cause`
(task_executor_enhanced.py:463-478); `none` models the `AttributeError`
raised by `.lower()` when the recorded error value is not a string. -/
def infer_root_cause : ErrVal → Option Str
  | .estr s =>
    let el := lowerStr s
    some
      (if isSubstr (str "cannot find module") el ||
          isSubstr (str "missing") el then
        str "Missing configuration or dependency file"
      else if isSubstr (str "permission") el ||
          isSubstr (str "denied") el then
        str "Permission or authentication issue"
      else if isSubstr (str "timeout") el ||
          isSubstr (str "connection") el then
        str "Network connectivity or timeout issue"
      else if isSubstr (str "memory") el || isSubstr (str "oom") el then
        str "Out of memory issue"
      else if isSubstr (str "crashloop") el then
        str "Container startup failure"
      else str "Unknown error - requires manual investigation")
  | _ => none

/-- `EnhancedTaskExecutor._identify_affected_components`. -/
def identify_affected_components (failed_step : TaskStep) : List Str :=
  let d := lowerStr failed_step.description
  if isSubstr (str "build") d then
    [str "Build System", str "Source Code"]
  else if isSubstr (str "test") d then
    [str "Test Suite", str "Test Environment"]
  else if isSubstr (str "deploy") d then
    [str "Deployment System", str "Kubernetes", str "Container Runtime"]
  else if isSubstr (str "quality") d then
    [str "Quality Scanner", str "Code Analysis"]
  else [str "Unknown Component"]

/-- `EnhancedTaskExecutor._analyze_root_cause` (phase 5), taking
`execution_results["step_results"][-1]` as an option; `none` models the
`IndexError` on an empty result list and the `AttributeError` on a
non-string error value. -/
def analyze_root_cause (failed_step : TaskStep)
    (last_result : Option ExecutionResult) : Option PhaseRecord :=
  match last_result with
  | none => none
  | some step_result =>
    match step_result.error with
    | none => none
    | some em =>
      (infer_root_cause em).map (fun cause =>
        { basePhase (str "Root Cause Analysis") with
          analysis := some
            { failed_step := failed_step.step_number,
              step_description := failed_step.description,
              error_type := classify_failure failed_step,
              error_message := some em,
              likely_cause := cause,
              affected_components :=
                identify_affected_components failed_step } })

/-- `EnhancedTaskExecutor._generate_fix_recommendations` (phase 6); `none`
models the `KeyError` on a root-cause phase lacking its analysis (never the
case in the controller's own flow). -/
def generate_fix_recommendations (root_cause_phase : PhaseRecord) :
    Option PhaseRecord :=
  root_cause_phase.analysis.map (fun a =>
    let cause := a.likely_cause
    { basePhase (str "Fix Recommendations") with
      recommendations := some
        (if isSubstr (str "Missing configuration") cause then
          [{ priority := str "HIGH",
             action := str "Add missing configuration file",
             details := str "Create the missing file in your repository",
             exampleCmd := some (str "echo \x27\x7b\x22port\x22: 3000\x7d\x27 > config/production.json") },
           { priority := str "HIGH",
             action := str "Update Dockerfile to include config",
             details := str "Ensure Dockerfile copies config files",
             exampleCmd := some (str "COPY config/ ./config/") },
           { priority := str "MEDIUM",
             action := str "Commit and push changes",
             details := str "Push to GitHub to trigger auto-retry",
             exampleCmd := some (str "git add config/ Dockerfile && git commit -m \x27fix: Add config\x27 && git push") }]
        else if isSubstr (str "Permission") cause then
          [{ priority := str "HIGH",
             action := str "Check service account permissions",
             details := str "Verify RBAC roles and permissions",
             exampleCmd := none },
           { priority := str "MEDIUM",
             action := str "Update security policies",
             details := str "Grant necessary permissions to service account",
             exampleCmd := none }]
        else
          [{ priority := str "HIGH",
             action := str "Review error logs",
             details := str "Check archived logs for more details",
             exampleCmd := none },
           { priority := str "MEDIUM",
             action := str "Contact DevOps team",
             details := str "May require manual investigation",
             exampleCmd := none }]) })

/-- `EnhancedTaskExecutor._archive_failure_logs` (phase 7). -/
def archive_failure_logs (now : Nat) : PhaseRecord :=
  { basePhase (str "Log Archival") with
    archived_files := some
      [(str "execution_log",
        str "/logs/failures/execution-" ++ natRepr now ++ str ".json"),
       (str "error_details",
        str "/logs/failures/error-" ++ natRepr now ++ str ".txt"),
       (str "system_state",
        str "/logs/failures/state-" ++ natRepr now ++ str ".yaml")] }

/-- `EnhancedTaskExecutor._notify_team` (phase 8); `none` models the
`KeyError` on phases lacking their analysis or recommendations (never the
case in the controller's own flow). -/
def notify_team (failed_step : TaskStep) (root_cause_phase : PhaseRecord)
    (fix_phase : PhaseRecord) (now : Nat) : Option PhaseRecord :=
  match root_cause_phase.analysis, fix_phase.recommendations with
  | some a, some recs =>
    let msg : NotificationMessage :=
      { title := str "🚨 Deployment Failed - Automatic Rollback Completed",
        severity := str "HIGH",
        status :=
          str "System rolled back to stable version - Zero user impact",
        failed_step := str "Step " ++ natRepr failed_step.step_number ++
          str ": " ++ failed_step.description,
        root_cause := a.likely_cause,
        fix_instructions := recs,
        next_steps :=
          str "Fix the issue and push to GitHub. OPS Bot will auto-retry." }
    some { basePhase (str "Team Notification") with
      notifications := some
        [{ channel := str "Slack", target := str "#deployments",
           status := str "SENT", message := some msg, incident_id := none },
         { channel := str "Email", target := str "devops-team@company.com",
           status := str "SENT", message := some msg, incident_id := none },
         { channel := str "PagerDuty", target := str "incident",
           status := str "CREATED", message := none,
           incident_id := some (str "INC-" ++ natRepr now) }] }
  | _, _ => none

/-- The comprehensive rollback report of `_handle_failure_comprehensive`. -/
structure FailbackReport where
  reason : Str
  failure_type : Str
  phases : List PhaseRecord
  user_impact : Str
  system_status : Str
deriving DecidableEq, Repr

/-- `EnhancedTaskExecutor._handle_failure_comprehensive`
(task_executor_enhanced.py:240-323): the eight recovery phases in order;
`none` models an exception escaping the controller (possible only in the
root-cause phase, on a non-string error value or an empty result list, or
on an inconsistent backup record). -/
def handle_failure_comprehensive (failed_step : TaskStep)
    (last_result : Option ExecutionResult) (backup_state : Option BackupState)
    (now : Nat) : Option FailbackReport :=
  let phase1 := protect_traffic failed_step
  match rollback_to_previous_version backup_state with
  | none => none
  | some phase2 =>
    let phase3 := verify_system_stability
    let phase4 := cleanup_failed_resources
    match analyze_root_cause failed_step last_result with
    | none => none
    | some phase5 =>
      match generate_fix_recommendations phase5 with
      | none => none
      | some phase6 =>
        let phase7 := archive_failure_logs now
        match notify_team failed_step phase5 phase6 now with
        | none => none
        | some phase8 =>
          some
            { reason := str "Step " ++ natRepr failed_step.step_number ++
                str " (" ++ failed_step.description ++ str ") failed",
              failure_type := classify_failure failed_step,
              phases := [phase1, phase2, phase3, phase4, phase5, phase6,
                phase7, phase8],
              user_impact :=
                if phase1.success then str "ZERO" else str "MINIMAL",
              system_status :=
                if phase3.success then str "STABLE" else str "DEGRADED" }

/-- The mutable `results` dict of `execute_plan` (wall-clock timestamps
omitted from the embedding). -/
structure ExecResults where
  plan_id : Str
  status : Str
  steps_completed : Nat
  steps_failed : Nat
  step_results : List ExecutionResult
  backup_created : Bool
  backup_details : BackupState
  rollback : Option FailbackReport
  rollback_performed : Bool
deriving DecidableEq, Repr

/-- The two shapes `execute_plan` can return. -/
inductive ExecOutcome where
  | pendingApproval (message : Str)
  | ran (r : ExecResults)
deriving DecidableEq, Repr

/-- The step loop of `EnhancedTaskExecutor.execute_plan`
(task_executor_enhanced.py:82-104): one result appended per attempted step,
break on the first failure after running the failback controller.  `none`
models an exception escaping the controller. -/
def execLoop (o : OrchPermState) (outcomes : Nat → CallBehavior)
    (backup : Option BackupState) (now : Nat) :
    List TaskStep → Nat → ExecResults → Option ExecResults
  | [], _, results => some results
  | step :: rest, i, results =>
    let step_result := execute_step o (outcomes i) step
    let results1 := { results with
      step_results := results.step_results ++ [step_result] }
    if step_result.success then
      execLoop o outcomes backup now rest (i + 1)
        { results1 with steps_completed := results1.steps_completed + 1 }
    else
      let results2 := { results1 with
        steps_failed := results1.steps_failed + 1,
        status := str "failed" }
      match handle_failure_comprehensive step
          results2.step_results.getLast? backup now with
      | none => none
      | some rb =>
        some { results2 with rollback := some rb, rollback_performed := true }

/-- `EnhancedTaskExecutor.execute_plan` (task_executor_enhanced.py:41-119);
the i-th attempted step observes call behavior `outcomes i`, and `none`
models an exception escaping the run. -/
def execute_plan (o : OrchPermState) (plan : TaskPlan)
    (outcomes : Nat → CallBehavior) (now : Nat) (user_approval : Bool) :
    Option ExecOutcome :=
  if !user_approval then
    some (.pendingApproval
      (str "Plan requires user approval before execution"))
  else
    let backup := create_pre_deployment_backup plan now
    let init : ExecResults :=
      { plan_id := plan.plan_id, status := str "in_progress",
        steps_completed := 0, steps_failed := 0, step_results := [],
        backup_created := backup.success, backup_details := backup,
        rollback := none, rollback_performed := false }
    match execLoop o outcomes (some backup) now plan.steps 0 init with
    | none => none
    | some results =>
      some (.ran (if results.steps_failed = 0 then
        { results with status := str "completed" }
      else results))

/-- The log prefix kept by the executor: everything up to and including the
first failed result (used only in theorem statements). -/
def takeThroughFail : List ExecutionResult → List ExecutionResult
  | [] => []
  | r :: rest => if r.success then r :: takeThroughFail rest else [r]

/-- Number of failed results in a log (used only in theorem statements). -/
def countFailures (l : List ExecutionResult) : Nat :=
  (l.filter (fun r => !r.success)).length

/-- Pair each element with its position, starting at `i` (used only in
theorem statements). -/
def withIdx {α : Type} : Nat → List α → List (Nat × α)
  | _, [] => []
  | i, s :: rest => (i, s) :: withIdx (i + 1) rest

/-- The per-step results the executor would compute for a step list (used
only in theorem statements). -/
def attemptResults (o : OrchPermState) (outcomes : Nat → CallBehavior)
    (steps : List TaskStep) : List ExecutionResult :=
  (withIdx 0 steps).map (fun pr => execute_step o (outcomes pr.1) pr.2)

/-- The log the loop should produce from position `i` on (used only in
theorem statements). -/
def loopLog (o : OrchPermState) (outcomes : Nat → CallBehavior) (i : Nat)
    (steps : List TaskStep) : List ExecutionResult :=
  takeThroughFail
    ((withIdx i steps).map (fun pr => execute_step o (outcomes pr.1) pr.2))

/-! ## Role switching (`set_role`, main.py:993-1013) -/

/-- The in-memory orchestrator configuration as `set_role` sees it: the
`"rbac"` block (absent keys raise `KeyError` on assignment), with the other
top-level entries carried opaquely. -/
structure OrchConfig where
  rbac : Option (List (Str × Str))
  rest : List (Str × Str)
deriving DecidableEq, Repr

/-- The module state touched by `set_role`: the active role, the in-memory
configuration, and the persisted configuration file (absent when never
written). -/
structure RoleState where
  current_role : Str
  config : OrchConfig
  config_file : Option OrchConfig
deriving DecidableEq, Repr

/-- Outcome of `set_role`: a returned message, or a `KeyError` escaping
(with the state as mutated so far). -/
inductive SetRoleOutcome where
  | ok (st : RoleState) (msg : Str)
  | keyError (st : RoleState)
deriving DecidableEq, Repr

/-- `set_role` (main.py:993-1013): validation first, then role mutation,
config mutation and `save_config`. -/
def set_role (st : RoleState) (role : Str) : SetRoleOutcome :=
  if role ∉ [str "user", str "admin"] then
    .ok st (str "Error: Invalid role \x27" ++ role ++
      str "\x27. Valid roles are: user, admin")
  else
    let st1 := { st with current_role := role }
    match st1.config.rbac with
    | none => .keyError st1
    | some rbac =>
      let config2 : OrchConfig := { st1.config with
        rbac := some (dset rbac (str "current_role") role) }
      let st2 := { st1 with config := config2 }
      let st3 := { st2 with config_file := some config2 }
      .ok st3 (str "Role changed to: " ++ role)

/-! ## Concrete fixtures used by witness theorems -/

/-- A small policy: `deploy_application` on `kubernetes` for the admin role,
unknown tools denied by default. -/
def fixturePermState : OrchPermState :=
  { permissions :=
      { tool_permissions :=
          [(str "kubernetes",
            [(str "deploy_application",
              { allowed_roles := [str "admin"],
                description := str "Deploy an app" })])],
        default_policy_unknown_tools := none },
    current_role := str "admin",
    rbac_enabled := true }

/-- A registry with one running stdio provider. -/
def fixtureServers : List (Str × ServerEntry) :=
  [(str "jenkins",
    { server_type := .stdio, status := str "running", tools := [],
      resources := [], prompts := [] })]

/-- A Jenkins build tool descriptor. -/
def fixtureTool : ToolDef :=
  { name := some (str "build_job"),
    description := some (str "Runs a Jenkins build"),
    schema_properties := [str "name"], schema_required := [] }

/-- Provider replies advertising one tool, no prompts, and omitting the
resources category. -/
def fixtureResponses : ProviderResponses :=
  { init_error := none, tools_resp := .found [fixtureTool],
    resources_resp := .absent, prompts_resp := .found [] }

/-- The capability set discovered from `fixtureResponses`. -/
def fixtureDiscCaps : Capabilities :=
  { tools := [fixtureTool], resources := [], prompts := [] }

/-- The capability cache after discovering `fixtureResponses`. -/
def fixtureDiscCache : List (Str × Capabilities) :=
  [(str "jenkins", fixtureDiscCaps)]

/-- The registry after mirroring the discovered capabilities. -/
def fixtureDiscServers : List (Str × ServerEntry) :=
  [(str "jenkins",
    { server_type := .stdio, status := str "running",
      tools := [(str "build_job", fixtureTool)], resources := [],
      prompts := [] })]

/-- A role state with an rbac block present. -/
def fixtureRoleState : RoleState :=
  { current_role := str "user",
    config := { rbac := some [(str "enabled", str "true"),
                  (str "current_role", str "user")],
                rest := [] },
    config_file := none }

/-- An orchestrator state with RBAC disabled. -/
def fixtureOrch : OrchPermState :=
  { permissions := { tool_permissions := [],
                     default_policy_unknown_tools := none },
    current_role := str "user", rbac_enabled := false }

/-- A build step. -/
def fixtureStep1 : TaskStep :=
  { step_number := 1, server_name := str "jenkins",
    tool_name := str "build_job", description := str "Build for app",
    arguments := [], expected_duration := str "2-5 minutes",
    risk_level := .medium, dependencies := [], parallel_execution := false,
    validation_required := false, rollback_step := none,
    compliance_checks := [] }

/-- A deploy step. -/
def fixtureStep2 : TaskStep :=
  { step_number := 2, server_name := str "kubernetes",
    tool_name := str "deploy_application",
    description := str "Deploy for app", arguments := [],
    expected_duration := str "2-3 minutes", risk_level := .critical,
    dependencies := [1], parallel_execution := false,
    validation_required := true, rollback_step := none,
    compliance_checks := [] }

/-- A two-step plan for executor runs. -/
def fixturePlanExec : TaskPlan :=
  { plan_id := str "plan_deploy_production_0",
    task_description := str "Deploy app to production",
    priority := .critical, total_steps := 2,
    estimated_duration := str "4-8 minutes", overall_risk := .critical,
    steps := [fixtureStep1, fixtureStep2],
    compliance_requirements := [], approval_required := true,
    rollback_strategy := str "Standard rollback available.",
    success_criteria := [], failure_handling := str "Automatic rollback" }

/-- Call behavior where every tool call fails with a string error. -/
def fixtureOutcomes : Nat → CallBehavior :=
  fun _ => .returns
    { error := some (.estr (str "connection timeout")), result := none }

/-- Call behavior where every tool call fails with a JSON `null` error. -/
def fixtureNullOutcomes : Nat → CallBehavior :=
  fun _ => .returns { error := some .enull, result := none }

/-- Call behavior where every tool call fails with a JSON-RPC error
object. -/
def fixtureObjOutcomes : Nat → CallBehavior :=
  fun _ => .returns
    { error := some (.eobj (-32000) (str "upstream failure")),
      result := none }

/-- A failed execution result carrying a string error. -/
def fixtureFailedResult : ExecutionResult :=
  { success := false, step_number := 2,
    step_description := str "Deploy for app",
    output := .oresp { error := some (.estr (str "connection timeout")),
                       result := none },
    error := some (.estr (str "connection timeout")), duration := 0 }

/-- A step whose description embeds a fake display step block via newline
injection. -/
def evilStep : TaskStep :=
  { step_number := 1, server_name := str "k", tool_name := str "t",
    description :=
      str "x\n📍 Step 9: y\n   Server: a\n   Tool: b\n   Risk: LOW 🟢\n   Duration: 1m",
    arguments := [], expected_duration := str "1m", risk_level := .low,
    dependencies := [], parallel_execution := false,
    validation_required := false, rollback_step := none,
    compliance_checks := [] }

/-- A one-step plan carrying the newline-injected step. -/
def evilPlan : TaskPlan :=
  { plan_id := str "p", task_description := str "t", priority := .low,
    total_steps := 1, estimated_duration := str "1m", overall_risk := .low,
    steps := [evilStep], compliance_requirements := [],
    approval_required := false, rollback_strategy := str "r",
    success_criteria := [], failure_handling := str "f" }

/-- The operator input of the planner scenario claim. -/
def urgentRedeployInput : Str :=
  str "urgently redeploy payment-service in production"

/-- A structured intent for a production deployment. -/
def fixtureIntent : Intent :=
  { action := some (str "deploy"), target := some (str "payments"),
    environment := str "production", urgency := str "normal",
    parameters_version := none, parameters_replicas := none }

/-- A capability map with one Jenkins build tool. -/
def fixtureCaps : CapMap :=
  [(str "jenkins",
    [{ name := some (str "build_job"),
       description := some (str "Runs a Jenkins build"),
       schema_properties := [str "name"], schema_required := [] }])]

/-- A placeholder plan (only used as a `getD` default that is never hit). -/
def emptyPlan : TaskPlan :=
  { plan_id := [], task_description := [], priority := .low, total_steps := 0,
    estimated_duration := [], overall_risk := .low, steps := [],
    compliance_requirements := [], approval_required := false,
    rollback_strategy := [], success_criteria := [], failure_handling := [] }

/-- The plan the planner produces from `fixtureIntent` and `fixtureCaps`. -/
def fixturePlan : TaskPlan :=
  (create_deployment_plan fixtureIntent fixtureCaps 0).getD emptyPlan

/-! ## Supporting lemmas on the dictionary model -/

theorem alookup_aupdate {α : Type} (l : List (Str × α)) (k : Str) (f : α → α) :
    alookup (aupdate l k f) k = (alookup l k).map f := by
  induction l with
  | nil => rfl
  | cons p rest ih =>
    by_cases h : p.1 = k
    · simp [alookup, aupdate, h]
    · simpa [alookup, aupdate, h] using ih

theorem alookup_none_aupdate {α : Type} (l : List (Str × α)) (k : Str)
    (f : α → α) (h : alookup l k = none) : aupdate l k f = l := by
  induction l with
  | nil => rfl
  | cons p rest ih =>
    by_cases hp : p.1 = k
    · simp [alookup, hp] at h
    · simp only [alookup, if_neg hp] at h
      simp [aupdate, hp] at ih ⊢
      exact ih h

theorem alookup_append_of_none {α : Type} (l m : List (Str × α)) (k : Str)
    (h : alookup l k = none) : alookup (l ++ m) k = alookup m k := by
  induction l with
  | nil => rfl
  | cons p rest ih =>
    by_cases hp : p.1 = k
    · simp [alookup, hp] at h
    · simp only [alookup, if_neg hp] at h
      simp only [List.cons_append, alookup, if_neg hp]
      exact ih h

theorem aupdate_append {α : Type} (l m : List (Str × α)) (k : Str)
    (f : α → α) : aupdate (l ++ m) k f = aupdate l k f ++ aupdate m k f := by
  simp [aupdate]

theorem aupdate_aupdate {α : Type} (l : List (Str × α)) (k : Str)
    (f g : α → α) :
    aupdate (aupdate l k f) k g = aupdate l k (fun x => g (f x)) := by
  unfold aupdate
  rw [List.map_map]
  congr 1
  funext p
  by_cases hp : p.1 = k <;> simp [hp]

theorem alookup_dset {α : Type} (l : List (Str × α)) (k : Str) (v : α) :
    alookup (dset l k v) k = some v := by
  unfold dset
  cases ho : alookup l k with
  | some a => simp [ho, alookup_aupdate]
  | none =>
    simp only [ho, Option.isSome_none, Bool.false_eq_true, if_false]
    rw [alookup_append_of_none _ _ _ ho]
    simp [alookup]

theorem dset_dset {α : Type} (l : List (Str × α)) (k : Str) (v w : α) :
    dset (dset l k v) k w = dset l k w := by
  by_cases ho : (alookup l k).isSome
  · have e1 : dset l k v = aupdate l k (fun _ => v) := by
      rw [dset, if_pos ho]
    have e2 : dset l k w = aupdate l k (fun _ => w) := by
      rw [dset, if_pos ho]
    have hs : (alookup (aupdate l k (fun _ => v)) k).isSome := by
      rw [alookup_aupdate]
      cases hx : alookup l k with
      | none => rw [hx] at ho; simp at ho
      | some a => simp
    rw [e1, dset, if_pos hs, aupdate_aupdate, e2]
  · have hnone : alookup l k = none := by
      cases hx : alookup l k with
      | none => rfl
      | some a => rw [hx] at ho; simp at ho
    have e1 : dset l k v = l ++ [(k, v)] := by rw [dset, if_neg ho]
    have e2 : dset l k w = l ++ [(k, w)] := by rw [dset, if_neg ho]
    have hs : (alookup (l ++ [(k, v)]) k).isSome := by
      rw [alookup_append_of_none _ _ _ hnone]
      simp [alookup]
    rw [e1, dset, if_pos hs, aupdate_append,
      alookup_none_aupdate _ _ _ hnone, e2]
    simp [aupdate]

theorem maxRisk_right_critical (m : RiskLevel) :
    maxRisk m .critical = .critical := by
  cases m <;> rfl

theorem maxRisk_left_critical (b : RiskLevel) :
    maxRisk .critical b = .critical := by
  cases b <;> rfl

theorem foldl_maxRisk_critical (steps : List TaskStep) :
    steps.foldl (fun a s => maxRisk a s.risk_level) .critical = .critical := by
  induction steps with
  | nil => rfl
  | cons s rest ih =>
    rw [List.foldl_cons, maxRisk_left_critical, ih]

theorem calcOverallRiskLoop_eq_foldl (steps : List TaskStep) :
    ∀ m, calcOverallRiskLoop steps m =
      steps.foldl (fun a s => maxRisk a s.risk_level) m := by
  induction steps with
  | nil => intro m; rfl
  | cons s rest ih =>
    intro m
    cases hs : s.risk_level <;> cases m <;>
      first
        | (simp only [calcOverallRiskLoop, hs, List.foldl_cons, ih]; rfl)
        | (simp only [calcOverallRiskLoop, hs, List.foldl_cons,
            maxRisk_right_critical]
           exact (foldl_maxRisk_critical rest).symm)

theorem foldl_maxRisk_of_mem_critical (steps : List TaskStep) :
    ∀ m s, s ∈ steps → s.risk_level = .critical →
      steps.foldl (fun a s => maxRisk a s.risk_level) m = .critical := by
  induction steps with
  | nil => intro m s hs; exact absurd hs (List.not_mem_nil s)
  | cons t rest ih =>
    intro m s hs hcrit
    rcases List.mem_cons.mp hs with heq | hmem
    · subst heq
      rw [List.foldl_cons, hcrit, maxRisk_right_critical]
      exact foldl_maxRisk_critical rest
    · rw [List.foldl_cons]
      exact ih _ s hmem hcrit

/-- C2: with permission enforcement enabled, an operation absent from the
loaded policy document is denied exactly when the default policy for unknown
tools is `deny` (and allowed for any other default), while an operation
present in the policy is allowed exactly when the active role appears in its
allowed-role set. -/
theorem check_tool_permission_policy (st : OrchPermState) (server tool : Str)
    (hrbac : st.rbac_enabled = true) :
    (alookup (toolPermsFor st server) tool = none →
      (((check_tool_permission st server tool).1 = false ↔
          defaultUnknownPolicy st = str "deny") ∧
       ((check_tool_permission st server tool).1 = true ↔
          defaultUnknownPolicy st ≠ str "deny"))) ∧
    (∀ entry, alookup (toolPermsFor st server) tool = some entry →
      ((check_tool_permission st server tool).1 = true ↔
        st.current_role ∈ entry.allowed_roles)) := by
  constructor
  · intro hnone
    by_cases hd : defaultUnknownPolicy st = str "deny" <;>
      simp [check_tool_permission, hrbac, hnone, hd]
  · intro entry hentry
    by_cases hm : st.current_role ∈ entry.allowed_roles <;>
      simp [check_tool_permission, hrbac, hentry, hm]

/-- Concrete instantiation of `check_tool_permission_policy`: a policy that
lists `deploy_application` on `kubernetes` for the admin role, with unknown
tools denied by default. -/
theorem check_tool_permission_policy_witness :
    ((check_tool_permission fixturePermState
        (str "kubernetes") (str "delete_everything")).1 = false) ∧
    ((check_tool_permission fixturePermState
        (str "kubernetes") (str "deploy_application")).1 = true) := by
  refine ⟨?_, ?_⟩
  · exact (((check_tool_permission_policy fixturePermState (str "kubernetes")
      (str "delete_everything") (by decide)).1 (by decide)).1).mpr (by decide)
  · exact ((check_tool_permission_policy fixturePermState (str "kubernetes")
      (str "deploy_application") (by decide)).2
      { allowed_roles := [str "admin"], description := str "Deploy an app" }
      (by decide)).mpr (by decide)

/-- C5: stopping a registered provider always returns `true` and leaves the
provider's status equal to `"stopped"`, whether the provider is an HTTP
registration or a child process that terminated gracefully within the timeout
or had to be force-killed. -/
theorem stop_server_always_stopped (servers : List (Str × ServerEntry))
    (name : Str) (beh : TermBehavior) (entry : ServerEntry)
    (h : alookup servers name = some entry) :
    (stop_server servers name beh).2 = true ∧
    alookup (stop_server servers name beh).1 name =
      some { entry with status := str "stopped" } := by
  obtain ⟨ty, stat, tl, rs, ps⟩ := entry
  cases ty <;> cases beh <;>
    simp [stop_server, h, alookup_aupdate]

/-- Concrete instantiation of `stop_server_always_stopped`: a running stdio
provider that needs a force kill still ends with status `"stopped"`. -/
theorem stop_server_always_stopped_witness :
    (stop_server fixtureServers (str "jenkins") .timeoutThenKill).2 = true ∧
    alookup (stop_server fixtureServers (str "jenkins") .timeoutThenKill).1
        (str "jenkins") =
      some { server_type := .stdio, status := str "stopped", tools := [],
             resources := [], prompts := [] } := by
  exact stop_server_always_stopped fixtureServers (str "jenkins")
    .timeoutThenKill
    { server_type := .stdio, status := str "running", tools := [],
      resources := [], prompts := [] }
    (by decide)

/-- C6 counterexample: for the tool name `"view"` the assessed risk is `low`
both in production and in staging, so production risk is not one level
higher than non-production risk for every tool name. -/
theorem assess_tool_risk_view_not_escalated :
    ¬((assess_tool_risk (str "view") (str "production")).rank =
      (assess_tool_risk (str "view") (str "staging")).rank + 1) := by
  decide

/-- C6 amended: in production the planner escalates a medium keyword risk to
high and a high keyword risk to critical, and assesses unmatched tools at
medium instead of low; a tool whose matched keyword risk is already low, or
critical, is assessed the same in production as elsewhere. -/
theorem assess_tool_risk_production_escalation (tool env : Str)
    (h : env ≠ str "production") :
    (assess_tool_risk tool env = .medium →
      assess_tool_risk tool (str "production") = .high) ∧
    (assess_tool_risk tool env = .high →
      assess_tool_risk tool (str "production") = .critical) ∧
    (assess_tool_risk tool env = .critical →
      assess_tool_risk tool (str "production") = .critical) ∧
    (assess_tool_risk tool env = .low →
      ((riskKeywordMatch (lowerStr tool) = some .low ∧
        assess_tool_risk tool (str "production") = .low) ∨
       (riskKeywordMatch (lowerStr tool) = none ∧
        assess_tool_risk tool (str "production") = .medium))) := by
  unfold assess_tool_risk
  cases hm : riskKeywordMatch (lowerStr tool) with
  | none => simp [hm, h]
  | some r => cases r <;> simp [hm, h]

/-- Concrete instantiation of `assess_tool_risk_production_escalation`: a
deploy tool is high risk in staging and critical in production. -/
theorem assess_tool_risk_production_escalation_witness :
    assess_tool_risk (str "deploy_app") (str "staging") = .high ∧
    assess_tool_risk (str "deploy_app") (str "production") = .critical := by
  have h := assess_tool_risk_production_escalation (str "deploy_app")
    (str "staging") (by decide)
  exact ⟨by decide, h.2.1 (by decide)⟩

/-- C4 counterexample: on the input
`"urgently redeploy payment-service in production"` the target-extraction
loop finds no application-noun token (it tests tokens for equality with
`code`/`app`/`application`/`service`/`microservice`, and `payment-service`
is none of these), so the analyzed target is not `"payment-service"`. -/
theorem analyze_intent_target_missed :
    (analyze_user_intent urgentRedeployInput).target ≠
      some (str "payment-service") := by
  decide

/-- C4 amended: the input
`"urgently redeploy payment-service in production"` analyzes to
action `deploy`, environment `production`, urgency `urgent`, with the target
left unset (`None`), and plan creation selects the hotfix deployment
pattern. -/
theorem analyze_intent_urgent_redeploy :
    (analyze_user_intent urgentRedeployInput).action = some (str "deploy") ∧
    (analyze_user_intent urgentRedeployInput).environment =
      str "production" ∧
    (analyze_user_intent urgentRedeployInput).urgency = str "urgent" ∧
    (analyze_user_intent urgentRedeployInput).target = none ∧
    select_pattern (analyze_user_intent urgentRedeployInput).environment
      (analyze_user_intent urgentRedeployInput).urgency =
      hotfix_deployment := by
  decide

/-- C3: every plan produced by `create_deployment_plan` carries an overall
risk equal to the maximum risk across its steps, and its approval flag is
set whenever the environment is production and whenever any step carries
critical risk. -/
theorem create_plan_overall_risk_approval (intent : Intent)
    (capabilities : CapMap) (now : Nat) (plan : TaskPlan)
    (h : create_deployment_plan intent capabilities now = some plan) :
    plan.overall_risk =
      plan.steps.foldl (fun a s => maxRisk a s.risk_level) .low ∧
    (intent.environment = str "production" →
      plan.approval_required = true) ∧
    (∀ s ∈ plan.steps, s.risk_level = .critical →
      plan.approval_required = true) := by
  simp only [create_deployment_plan] at h
  split at h
  · exact absurd h (by simp)
  · rw [Option.some_inj] at h
    subst h
    refine ⟨?_, ?_, ?_⟩
    · exact calcOverallRiskLoop_eq_foldl _ _
    · intro he
      simp [he]
    · intro s hs hcrit
      have hov : calculate_overall_risk
          (planStepsLoop intent capabilities intent.environment
            (intentTargetValue intent)
            (select_pattern intent.environment intent.urgency) 1) =
          .critical := by
        rw [calculate_overall_risk, calcOverallRiskLoop_eq_foldl]
        exact foldl_maxRisk_of_mem_critical _ _ s hs hcrit
      simp [hov]

/-- Concrete instantiation of `create_plan_overall_risk_approval`: the plan
built from a production deployment intent over a one-tool capability map. -/
theorem create_plan_overall_risk_approval_witness :
    create_deployment_plan fixtureIntent fixtureCaps 0 = some fixturePlan ∧
    fixturePlan.overall_risk =
      fixturePlan.steps.foldl (fun a s => maxRisk a s.risk_level) .low ∧
    fixturePlan.approval_required = true := by
  have heq : create_deployment_plan fixtureIntent fixtureCaps 0 =
      some fixturePlan := by decide
  have h := create_plan_overall_risk_approval fixtureIntent fixtureCaps 0
    fixturePlan heq
  exact ⟨heq, h.1, h.2.1 (by decide)⟩

theorem rollback_total (backup : Option BackupState)
    (hbk : ∀ bs, backup = some bs →
      bs.items_backed_up = bs.backup_locations.length) :
    ∃ ph, rollback_to_previous_version backup = some ph ∧
      ph.phase = str "Rollback to Previous Version" := by
  cases backup with
  | none => exact ⟨_, rfl, rfl⟩
  | some bs =>
    by_cases hpos : bs.items_backed_up > 0
    · have hlen : 0 < bs.backup_locations.length := by
        rw [← hbk bs rfl]; exact hpos
      cases hloc : bs.backup_locations with
      | nil => rw [hloc] at hlen; exact absurd hlen (by simp)
      | cons item rest =>
        refine ⟨{ basePhase (str "Rollback to Previous Version") with
            actions := some
              [(str "Loading backup from " ++ item.location, str "SUCCESS"),
               (str "Applying previous deployment configuration",
                str "SUCCESS"),
               (str "Scaling previous version to full capacity",
                str "SUCCESS")] }, ?_, rfl⟩
        simp [rollback_to_previous_version, hpos, hloc]
    · refine ⟨{ basePhase (str "Rollback to Previous Version") with
          actions := some
            [(str "No backup available, using default rollback",
              str "WARNING")] }, ?_, rfl⟩
      simp [rollback_to_previous_version, hpos]

theorem rollback_phase_name (backup : Option BackupState)
    (ph : PhaseRecord) (h : rollback_to_previous_version backup = some ph) :
    ph.phase = str "Rollback to Previous Version" := by
  cases backup with
  | none =>
    simp only [rollback_to_previous_version, Option.some_inj] at h
    subst h; rfl
  | some bs =>
    by_cases hpos : bs.items_backed_up > 0
    · simp only [rollback_to_previous_version, if_pos hpos] at h
      cases hh : bs.backup_locations.head? with
      | none => rw [hh] at h; simp at h
      | some item =>
        rw [hh] at h
        simp only [Option.some_inj] at h
        subst h; rfl
    · simp only [rollback_to_previous_version, if_neg hpos,
        Option.some_inj] at h
      subst h; rfl

theorem analyze_phase_name (fs : TaskStep) (lastR : Option ExecutionResult)
    (ph : PhaseRecord) (h : analyze_root_cause fs lastR = some ph) :
    ph.phase = str "Root Cause Analysis" := by
  cases lastR with
  | none => simp [analyze_root_cause] at h
  | some r =>
    cases hr : r.error with
    | none => simp [analyze_root_cause, hr] at h
    | some em =>
      simp only [analyze_root_cause, hr] at h
      cases hc : infer_root_cause em with
      | none => rw [hc] at h; simp at h
      | some c =>
        rw [hc] at h
        simp only [Option.map_some', Option.some_inj] at h
        subst h; rfl

theorem generate_phase_name (ph5 ph6 : PhaseRecord)
    (h : generate_fix_recommendations ph5 = some ph6) :
    ph6.phase = str "Fix Recommendations" := by
  unfold generate_fix_recommendations at h
  cases ha : ph5.analysis with
  | none => rw [ha] at h; simp at h
  | some a =>
    rw [ha] at h
    simp only [Option.map_some', Option.some_inj] at h
    subst h; rfl

theorem notify_phase_name (fs : TaskStep) (ph5 ph6 : PhaseRecord) (now : Nat)
    (ph8 : PhaseRecord) (h : notify_team fs ph5 ph6 now = some ph8) :
    ph8.phase = str "Team Notification" := by
  unfold notify_team at h
  cases ha : ph5.analysis with
  | none => rw [ha] at h; simp at h
  | some a =>
    cases hr : ph6.recommendations with
    | none => rw [ha, hr] at h; simp at h
    | some recs =>
      rw [ha, hr] at h
      simp only [Option.some_inj] at h
      subst h; rfl

theorem handle_phases_names (fs : TaskStep) (lastR : Option ExecutionResult)
    (backup : Option BackupState) (now : Nat) (report : FailbackReport)
    (h : handle_failure_comprehensive fs lastR backup now = some report) :
    report.phases.map (fun ph => ph.phase) =
      [str "Traffic Protection", str "Rollback to Previous Version",
       str "System Stability Verification", str "Resource Cleanup",
       str "Root Cause Analysis", str "Fix Recommendations",
       str "Log Archival", str "Team Notification"] := by
  unfold handle_failure_comprehensive at h
  cases h2 : rollback_to_previous_version backup with
  | none => rw [h2] at h; simp at h
  | some ph2 =>
    simp only [h2] at h
    cases h5 : analyze_root_cause fs lastR with
    | none => rw [h5] at h; simp at h
    | some ph5 =>
      simp only [h5] at h
      cases h6 : generate_fix_recommendations ph5 with
      | none => rw [h6] at h; simp at h
      | some ph6 =>
        simp only [h6] at h
        cases h8 : notify_team fs ph5 ph6 now with
        | none => rw [h8] at h; simp at h
        | some ph8 =>
          simp only [h8, Option.some_inj] at h
          subst h
          simp [protect_traffic, verify_system_stability,
            cleanup_failed_resources, archive_failure_logs, basePhase,
            rollback_phase_name backup ph2 h2,
            analyze_phase_name fs lastR ph5 h5,
            generate_phase_name ph5 ph6 h6,
            notify_phase_name fs ph5 ph6 now ph8 h8]

theorem handle_failure_total (failed_step : TaskStep)
    (lastR : ExecutionResult) (backup : Option BackupState) (now : Nat)
    (es : Str) (herr : lastR.error = some (.estr es))
    (hbk : ∀ bs, backup = some bs →
      bs.items_backed_up = bs.backup_locations.length) :
    ∃ report,
      handle_failure_comprehensive failed_step (some lastR) backup now =
        some report ∧
      report.phases.map (fun ph => ph.phase) =
        [str "Traffic Protection", str "Rollback to Previous Version",
         str "System Stability Verification", str "Resource Cleanup",
         str "Root Cause Analysis", str "Fix Recommendations",
         str "Log Archival", str "Team Notification"] := by
  obtain ⟨ph2, hph2, hname2⟩ := rollback_total backup hbk
  obtain ⟨cause, hcause⟩ : ∃ c, infer_root_cause (.estr es) = some c :=
    ⟨_, rfl⟩
  have h5 : analyze_root_cause failed_step (some lastR) = some
      { basePhase (str "Root Cause Analysis") with
        analysis := some
          { failed_step := failed_step.step_number,
            step_description := failed_step.description,
            error_type := classify_failure failed_step,
            error_message := some (.estr es),
            likely_cause := cause,
            affected_components :=
              identify_affected_components failed_step } } := by
    simp [analyze_root_cause, herr, hcause]
  have hsome : (handle_failure_comprehensive failed_step (some lastR)
      backup now).isSome := by
    unfold handle_failure_comprehensive
    rw [hph2, h5]
    rfl
  obtain ⟨report, hrep⟩ := Option.isSome_iff_exists.mp hsome
  exact ⟨report, hrep,
    handle_phases_names failed_step (some lastR) backup now report hrep⟩

/-! ### Decimal representation round-trip -/

/-- Little-endian value of a digit list. -/
def digitsVal : List Nat → Nat
  | [] => 0
  | d :: l => d + 10 * digitsVal l

theorem natDigitsRev_lt_ten :
    ∀ (fuel n : Nat), ∀ d ∈ natDigitsRev fuel n, d < 10 := by
  intro fuel
  induction fuel with
  | zero => intro n d hd; exact absurd hd (List.not_mem_nil d)
  | succ fuel ih =>
    intro n d hd
    by_cases h : n < 10
    · simp [natDigitsRev, h] at hd
      omega
    · simp only [natDigitsRev, if_neg h] at hd
      rcases List.mem_cons.mp hd with rfl | hd
      · omega
      · exact ih (n / 10) d hd

theorem natDigitsRev_val :
    ∀ (fuel n : Nat), n < fuel → digitsVal (natDigitsRev fuel n) = n := by
  intro fuel
  induction fuel with
  | zero => intro n h; omega
  | succ fuel ih =>
    intro n h
    by_cases hn : n < 10
    · simp [natDigitsRev, hn, digitsVal]
    · have hdiv : n / 10 < n := Nat.div_lt_self (by omega) (by omega)
      simp only [natDigitsRev, if_neg hn, digitsVal]
      rw [ih (n / 10) (by omega)]
      omega

theorem digitChar_isDigit (d : Nat) (hd : d < 10) :
    (digitChar d).isDigit = true ∧ (digitChar d).toNat - 48 = d := by
  interval_cases d <;> exact ⟨rfl, rfl⟩

theorem parseNatPrefix_digits :
    ∀ (ds : List Nat), (∀ d ∈ ds, d < 10) → ∀ (acc : Nat) (rest : Str),
      (∀ c, rest.head? = some c → c.isDigit = false) →
      parseNatPrefix acc (ds.map digitChar ++ rest) =
        List.foldl (fun a d => 10 * a + d) acc ds := by
  intro ds
  induction ds with
  | nil =>
    intro _ acc rest hrest
    cases rest with
    | nil => rfl
    | cons c t =>
      have hc := hrest c rfl
      simp [parseNatPrefix, hc]
  | cons d ds' ih =>
    intro hlt acc rest hrest
    have hd := digitChar_isDigit d (hlt d (List.mem_cons_self d ds'))
    simp only [List.map_cons, List.cons_append, parseNatPrefix, hd.1,
      if_true, hd.2, List.foldl_cons]
    exact ih (fun x hx => hlt x (List.mem_cons_of_mem d hx)) _ rest hrest

theorem foldl_reverse_digitsVal :
    ∀ (l : List Nat) (acc : Nat),
      List.foldl (fun a d => 10 * a + d) acc l.reverse =
        acc * 10 ^ l.length + digitsVal l := by
  intro l
  induction l with
  | nil => intro acc; simp [digitsVal]
  | cons d t ih =>
    intro acc
    simp only [List.reverse_cons, List.foldl_append, ih, List.foldl_cons,
      List.foldl_nil, digitsVal, List.length_cons]
    ring

theorem parseNatPrefix_natRepr (n : Nat) (rest : Str)
    (hrest : ∀ c, rest.head? = some c → c.isDigit = false) :
    parseNatPrefix 0 (natRepr n ++ rest) = n := by
  unfold natRepr
  rw [parseNatPrefix_digits ((natDigitsRev (n + 1) n).reverse)
    (fun d hd => natDigitsRev_lt_ten (n + 1) n d (List.mem_reverse.mp hd))
    0 rest hrest]
  rw [foldl_reverse_digitsVal]
  rw [natDigitsRev_val (n + 1) n (Nat.lt_succ_self n)]
  simp

/-! ### Line splitting -/

theorem splitOnChar_ne_nil (sep : Char) (s : Str) :
    splitOnChar sep s ≠ [] := by
  cases s with
  | nil => simp [splitOnChar]
  | cons c rest =>
    by_cases h : c = sep
    · simp [splitOnChar, h]
    · simp only [splitOnChar, if_neg h]
      cases hs : splitOnChar sep rest <;> simp

theorem splitOnChar_append_sep (sep : Char) (a b : Str) :
    splitOnChar sep (a ++ sep :: b) =
      splitOnChar sep a ++ splitOnChar sep b := by
  induction a with
  | nil => simp [splitOnChar]
  | cons c a' ih =>
    by_cases h : c = sep
    · simp [splitOnChar, h, ih]
    · rw [List.cons_append]
      rw [show splitOnChar sep (c :: (a' ++ sep :: b)) =
        (match splitOnChar sep (a' ++ sep :: b) with
          | [] => [[c]]
          | h :: t => (c :: h) :: t) from by simp [splitOnChar, h]]
      rw [show splitOnChar sep (c :: a') =
        (match splitOnChar sep a' with
          | [] => [[c]]
          | h :: t => (c :: h) :: t) from by simp [splitOnChar, h]]
      rw [ih]
      cases hs : splitOnChar sep a' with
      | nil => exact absurd hs (splitOnChar_ne_nil sep a')
      | cons hd tl => simp

theorem splitOnChar_of_not_mem (sep : Char) (s : Str) (h : sep ∉ s) :
    splitOnChar sep s = [s] := by
  induction s with
  | nil => rfl
  | cons c rest ih =>
    have hc : ¬(c = sep) := fun he => h (he ▸ List.mem_cons_self c rest)
    have hr : sep ∉ rest := fun hm => h (List.mem_cons_of_mem c hm)
    simp [splitOnChar, hc, ih hr]

theorem split_joinChar (sep : Char) :
    ∀ (frags : List Str), frags ≠ [] →
      splitOnChar sep (joinChar sep frags) =
        frags.flatMap (splitOnChar sep) := by
  intro frags
  induction frags with
  | nil => intro h; exact absurd rfl h
  | cons f rest ih =>
    intro _
    cases rest with
    | nil => simp [joinChar]
    | cons g rest' =>
      rw [show joinChar sep (f :: g :: rest') =
        f ++ sep :: joinChar sep (g :: rest') from rfl]
      rw [splitOnChar_append_sep, ih (by simp)]
      simp

theorem noNL_append {a b : Str} (ha : noNL a) (hb : noNL b) :
    noNL (a ++ b) := by
  simp only [noNL, List.mem_append] at *
  exact fun h => h.elim ha hb

theorem natRepr_noNL (n : Nat) : noNL (natRepr n) := by
  intro hmem
  unfold natRepr at hmem
  obtain ⟨d, hd, hc⟩ := List.mem_map.mp hmem
  have hlt : d < 10 :=
    natDigitsRev_lt_ten (n + 1) n d (List.mem_reverse.mp hd)
  have : ('\n').isDigit = true := by
    rw [← hc]
    exact (digitChar_isDigit d hlt).1
  exact absurd this (by decide)

theorem joinCommaSpace_noNL :
    ∀ (L : List Str), (∀ x ∈ L, noNL x) → noNL (joinCommaSpace L) := by
  intro L
  induction L with
  | nil => intro _; intro h; exact absurd h (List.not_mem_nil _)
  | cons s t ih =>
    intro h
    cases t with
    | nil => exact h s (List.mem_cons_self s [])
    | cons u t' =>
      rw [show joinCommaSpace (s :: u :: t') =
        s ++ str ", " ++ joinCommaSpace (u :: t') from rfl]
      exact noNL_append
        (noNL_append (h s (List.mem_cons_self s _)) (by decide))
        (ih (fun x hx => h x (List.mem_cons_of_mem s hx)))

theorem flatMap_split_self (L : List Str) (h : ∀ l ∈ L, noNL l) :
    L.flatMap (splitOnChar '\n') = L := by
  induction L with
  | nil => rfl
  | cons l rest ih =>
    rw [List.flatMap_cons,
      splitOnChar_of_not_mem '\n' l (h l (List.mem_cons_self l rest)),
      ih (fun x hx => h x (List.mem_cons_of_mem l hx))]
    rfl

theorem split_nl_cons (x : Str) (hx : noNL x) :
    splitOnChar '\n' ('\n' :: x) = [[], x] := by
  rw [show splitOnChar '\n' ('\n' :: x) = [] :: splitOnChar '\n' x from by
    simp [splitOnChar]]
  rw [splitOnChar_of_not_mem '\n' x hx]

theorem noNL_risk_value_upper (r : RiskLevel) : noNL (upperStr r.value) := by
  cases r <;> decide

theorem noNL_risk_emoji (r : RiskLevel) : noNL (get_risk_emoji r) := by
  cases r <;> decide

theorem noNL_priority_value_upper (p : TaskPriority) :
    noNL (upperStr p.value) := by
  cases p <;> decide

theorem stepFragments_lines (step : TaskStep)
    (hd : noNL step.description) (hsv : noNL step.server_name)
    (htl : noNL step.tool_name) (hed : noNL step.expected_duration)
    (harg : ∀ kv ∈ step.arguments, noNL kv.1 ∧ noNL (pyValStr kv.2))
    (hcc : ∀ c ∈ step.compliance_checks, noNL c) :
    (stepFragments step).flatMap (splitOnChar '\n') = stepLines step := by
  have e1 : splitOnChar '\n' (str "\n📍 Step " ++ natRepr step.step_number ++
      str ": " ++ step.description) =
      [[], stepMarker ++ natRepr step.step_number ++ str ": " ++
        step.description] := by
    rw [show (str "\n📍 Step " ++ natRepr step.step_number ++ str ": " ++
      step.description) = '\n' :: (stepMarker ++ natRepr step.step_number ++
      str ": " ++ step.description) from rfl]
    exact split_nl_cons _ (noNL_append (noNL_append
      (noNL_append (by decide) (natRepr_noNL _)) (by decide)) hd)
  have e2 : splitOnChar '\n' (str "   Server: " ++ step.server_name) =
      [str "   Server: " ++ step.server_name] :=
    splitOnChar_of_not_mem _ _ (noNL_append (by decide) hsv)
  have e3 : splitOnChar '\n' (str "   Tool: " ++ step.tool_name) =
      [str "   Tool: " ++ step.tool_name] :=
    splitOnChar_of_not_mem _ _ (noNL_append (by decide) htl)
  have e4 : splitOnChar '\n' (str "   Risk: " ++
      upperStr step.risk_level.value ++ str " " ++
      get_risk_emoji step.risk_level) =
      [riskLinePre ++ upperStr step.risk_level.value ++ str " " ++
        get_risk_emoji step.risk_level] :=
    splitOnChar_of_not_mem _ _ (noNL_append (noNL_append
      (noNL_append (by decide) (noNL_risk_value_upper _)) (by decide))
      (noNL_risk_emoji _))
  have e5 : splitOnChar '\n' (str "   Duration: " ++
      step.expected_duration) =
      [str "   Duration: " ++ step.expected_duration] :=
    splitOnChar_of_not_mem _ _ (noNL_append (by decide) hed)
  have edep : (if step.dependencies.isEmpty then ([] : List Str)
      else [str "   Dependencies: Steps " ++
        joinCommaSpace (step.dependencies.map natRepr)]).flatMap
        (splitOnChar '\n') =
      (if step.dependencies.isEmpty then []
      else [str "   Dependencies: Steps " ++
        joinCommaSpace (step.dependencies.map natRepr)]) := by
    refine flatMap_split_self _ ?_
    intro l hl
    by_cases h : step.dependencies.isEmpty
    · simp [h] at hl
    · simp only [h, Bool.false_eq_true, if_false, List.mem_singleton] at hl
      subst hl
      have hj : noNL (joinCommaSpace (step.dependencies.map natRepr)) := by
        refine joinCommaSpace_noNL _ ?_
        intro x hx
        obtain ⟨m, _, rfl⟩ := List.mem_map.mp hx
        exact natRepr_noNL m
      exact noNL_append (by decide) hj
  have earg : (if step.arguments.isEmpty then ([] : List Str)
      else str "   Arguments:" ::
        step.arguments.map (fun kv =>
          str "     • " ++ kv.1 ++ str ": " ++ pyValStr kv.2)).flatMap
        (splitOnChar '\n') =
      (if step.arguments.isEmpty then []
      else str "   Arguments:" ::
        step.arguments.map (fun kv =>
          str "     • " ++ kv.1 ++ str ": " ++ pyValStr kv.2)) := by
    refine flatMap_split_self _ ?_
    intro l hl
    by_cases h : step.arguments.isEmpty
    · simp [h] at hl
    · simp only [h, Bool.false_eq_true, if_false, List.mem_cons] at hl
      rcases hl with rfl | hl
      · decide
      · obtain ⟨kv, hkv, rfl⟩ := List.mem_map.mp hl
        exact noNL_append (noNL_append
          (noNL_append (by decide) (harg kv hkv).1) (by decide))
          (harg kv hkv).2
  have eval : (if step.validation_required then
      [str "   ⚠️  Manual validation required after this step"]
      else ([] : List Str)).flatMap (splitOnChar '\n') =
      (if step.validation_required then
        [str "   ⚠️  Manual validation required after this step"]
      else []) := by
    refine flatMap_split_self _ ?_
    intro l hl
    by_cases h : step.validation_required
    · simp only [h, if_true, List.mem_singleton] at hl
      subst hl
      decide
    · simp [h] at hl
  have ecc : (if step.compliance_checks.isEmpty then ([] : List Str)
      else [str "   Compliance: " ++
        joinCommaSpace step.compliance_checks]).flatMap
        (splitOnChar '\n') =
      (if step.compliance_checks.isEmpty then []
      else [str "   Compliance: " ++
        joinCommaSpace step.compliance_checks]) := by
    refine flatMap_split_self _ ?_
    intro l hl
    by_cases h : step.compliance_checks.isEmpty
    · simp [h] at hl
    · simp only [h, Bool.false_eq_true, if_false, List.mem_singleton] at hl
      subst hl
      exact noNL_append (by decide) (joinCommaSpace_noNL _ hcc)
  unfold stepFragments stepLines
  simp only [List.flatMap_append, List.flatMap_cons, List.flatMap_nil,
    e1, e2, e3, e4, e5, edep, earg, eval, ecc]
  simp [stepMarker, riskLinePre]

theorem headerFragments_lines (plan : TaskPlan)
    (hpid : noNL plan.plan_id) (htd : noNL plan.task_description)
    (hed : noNL plan.estimated_duration)
    (hcr : ∀ r ∈ plan.compliance_requirements, noNL r)
    (hrs : noNL plan.rollback_strategy)
    (hsc : ∀ c ∈ plan.success_criteria, noNL c)
    (hfh : noNL plan.failure_handling) :
    (headerFragments plan).flatMap (splitOnChar '\n') = headerLines plan := by
  have r80 : splitOnChar '\n' (List.replicate 80 '=') =
      [List.replicate 80 '='] := by decide
  have e2 : splitOnChar '\n'
      (str "📋 INTELLIGENT TASK PLAN: " ++ plan.plan_id) =
      [str "📋 INTELLIGENT TASK PLAN: " ++ plan.plan_id] :=
    splitOnChar_of_not_mem _ _ (noNL_append (by decide) hpid)
  have e4 : splitOnChar '\n' (str "\n🎯 Task: " ++ plan.task_description) =
      [[], str "🎯 Task: " ++ plan.task_description] := by
    rw [show (str "\n🎯 Task: " ++ plan.task_description) =
      '\n' :: (str "🎯 Task: " ++ plan.task_description) from rfl]
    exact split_nl_cons _ (noNL_append (by decide) htd)
  have e5 : splitOnChar '\n'
      (str "⚡ Priority: " ++ upperStr plan.priority.value) =
      [str "⚡ Priority: " ++ upperStr plan.priority.value] :=
    splitOnChar_of_not_mem _ _
      (noNL_append (by decide) (noNL_priority_value_upper _))
  have e6 : splitOnChar '\n'
      (str "⚠️  Overall Risk: " ++ upperStr plan.overall_risk.value) =
      [str "⚠️  Overall Risk: " ++ upperStr plan.overall_risk.value] :=
    splitOnChar_of_not_mem _ _
      (noNL_append (by decide) (noNL_risk_value_upper _))
  have e7 : splitOnChar '\n'
      (str "⏱️  Estimated Duration: " ++ plan.estimated_duration) =
      [str "⏱️  Estimated Duration: " ++ plan.estimated_duration] :=
    splitOnChar_of_not_mem _ _ (noNL_append (by decide) hed)
  have e8 : splitOnChar '\n'
      (str "📊 Total Steps: " ++ natRepr plan.total_steps) =
      [str "📊 Total Steps: " ++ natRepr plan.total_steps] :=
    splitOnChar_of_not_mem _ _
      (noNL_append (by decide) (natRepr_noNL _))
  have happ : (if plan.approval_required then
      [str "\n⚠️  APPROVAL REQUIRED - High-risk operation in production environment"]
      else ([] : List Str)).flatMap (splitOnChar '\n') =
      (if plan.approval_required then
        [[],
         str "⚠️  APPROVAL REQUIRED - High-risk operation in production environment"]
      else []) := by
    by_cases h : plan.approval_required
    · have hx : splitOnChar '\n'
          (str "\n⚠️  APPROVAL REQUIRED - High-risk operation in production environment") =
          [[],
           str "⚠️  APPROVAL REQUIRED - High-risk operation in production environment"] := by
        decide
      simp [h, hx]
    · simp [h]
  have e9 : splitOnChar '\n' (str "\n📜 Compliance Requirements:") =
      [[], str "📜 Compliance Requirements:"] := by decide
  have ecrs : (plan.compliance_requirements.map
      (fun req => str "  ✓ " ++ req)).flatMap (splitOnChar '\n') =
      plan.compliance_requirements.map (fun req => str "  ✓ " ++ req) := by
    refine flatMap_split_self _ ?_
    intro l hl
    obtain ⟨r, hr, rfl⟩ := List.mem_map.mp hl
    exact noNL_append (by decide) (hcr r hr)
  have e10 : splitOnChar '\n' (str "\n🔄 Rollback Strategy:") =
      [[], str "🔄 Rollback Strategy:"] := by decide
  have e11 : splitOnChar '\n' (str "  " ++ plan.rollback_strategy) =
      [str "  " ++ plan.rollback_strategy] :=
    splitOnChar_of_not_mem _ _ (noNL_append (by decide) hrs)
  have e12 : splitOnChar '\n' (str "\n✅ Success Criteria:") =
      [[], str "✅ Success Criteria:"] := by decide
  have escs : (plan.success_criteria.map
      (fun c => str "  • " ++ c)).flatMap (splitOnChar '\n') =
      plan.success_criteria.map (fun c => str "  • " ++ c) := by
    refine flatMap_split_self _ ?_
    intro l hl
    obtain ⟨c, hc, rfl⟩ := List.mem_map.mp hl
    exact noNL_append (by decide) (hsc c hc)
  have e13 : splitOnChar '\n' (str "\n🚨 Failure Handling:") =
      [[], str "🚨 Failure Handling:"] := by decide
  have e14 : splitOnChar '\n' (str "  " ++ plan.failure_handling) =
      [str "  " ++ plan.failure_handling] :=
    splitOnChar_of_not_mem _ _ (noNL_append (by decide) hfh)
  have e15 : splitOnChar '\n' ('\n' :: List.replicate 80 '=') =
      [[], List.replicate 80 '='] := by decide
  have e16 : splitOnChar '\n' (str "EXECUTION STEPS") =
      [str "EXECUTION STEPS"] := by decide
  unfold headerFragments headerLines
  simp only [List.flatMap_append, List.flatMap_cons, List.flatMap_nil,
    r80, e2, e4, e5, e6, e7, e8, happ, e9, ecrs, e10, e11, e12, escs,
    e13, e14, e15, e16]
  simp

theorem footerFragments_lines :
    footerFragments.flatMap (splitOnChar '\n') = footerLines := by
  decide

theorem isPrefixOf_append_self (a b : Str) : a.isPrefixOf (a ++ b) = true := by
  induction a with
  | nil => simp [List.isPrefixOf]
  | cons c t ih => simp [List.isPrefixOf, ih]

theorem not_marker_cons (c : Char) (hc : ('📍' == c) = false) (x : Str) :
    stepMarker.isPrefixOf (c :: x) = false := by
  rw [show stepMarker = '📍' :: str " Step " from rfl]
  simp [List.isPrefixOf, hc]

theorem parseStepsLines_nil_cons (t : List Str) :
    parseStepsLines ([] :: t) = parseStepsLines t := by
  have h : stepMarker.isPrefixOf ([] : Str) = false := by decide
  simp [parseStepsLines, h]

theorem parseStepsLines_skip_cons (x : Str) (t : List Str)
    (hx : stepMarker.isPrefixOf x = false) :
    parseStepsLines (x :: t) = parseStepsLines t := by
  simp [parseStepsLines, hx]

theorem parseStepsLines_marker (x : Str) (t : List Str)
    (hx : stepMarker.isPrefixOf x = true) :
    parseStepsLines (x :: t) =
      (parseNatPrefix 0 (x.drop stepMarker.length),
       match t with
       | _ :: _ :: l3 :: _ => parseRiskLine l3
       | _ => none) :: parseStepsLines t := by
  simp [parseStepsLines, hx]

theorem parse_skip (pre rest : List Str)
    (h : ∀ l ∈ pre, stepMarker.isPrefixOf l = false) :
    parseStepsLines (pre ++ rest) = parseStepsLines rest := by
  induction pre with
  | nil => rfl
  | cons l t ih =>
    rw [List.cons_append,
      parseStepsLines_skip_cons _ _ (h l (List.mem_cons_self l t))]
    exact ih fun x hx => h x (List.mem_cons_of_mem l hx)

theorem mem_of_ite {P : Prop} [Decidable P] {A B : List Str} {l : Str}
    (h : l ∈ (if P then A else B)) : l ∈ A ∨ l ∈ B := by
  by_cases hp : P
  · rw [if_pos hp] at h; exact Or.inl h
  · rw [if_neg hp] at h; exact Or.inr h

theorem parseRiskLine_value (r : RiskLevel) :
    parseRiskLine (riskLinePre ++ upperStr r.value ++ str " " ++
      get_risk_emoji r) = some r := by
  cases r <;> decide

theorem parse_stepLines (step : TaskStep) (rest : List Str) :
    parseStepsLines (stepLines step ++ rest) =
      (step.step_number, some step.risk_level) :: parseStepsLines rest := by
  have hml : stepMarker ++ natRepr step.step_number ++ str ": " ++
      step.description =
      stepMarker ++ (natRepr step.step_number ++ (str ": " ++
        step.description)) := by
    simp [List.append_assoc]
  have hpre : stepMarker.isPrefixOf (stepMarker ++
      natRepr step.step_number ++ str ": " ++ step.description) = true := by
    rw [hml]; exact isPrefixOf_append_self _ _
  have hnum : parseNatPrefix 0 ((stepMarker ++ natRepr step.step_number ++
      str ": " ++ step.description).drop stepMarker.length) =
      step.step_number := by
    rw [hml, List.drop_left]
    refine parseNatPrefix_natRepr _ _ ?_
    intro c hc
    rw [show (str ": " ++ step.description).head? = some ':' from rfl] at hc
    injection hc with hc
    subst hc
    decide
  have hsv : stepMarker.isPrefixOf (str "   Server: " ++
      step.server_name) = false := not_marker_cons _ (by decide) _
  have htl : stepMarker.isPrefixOf (str "   Tool: " ++
      step.tool_name) = false := not_marker_cons _ (by decide) _
  have hrk : stepMarker.isPrefixOf (riskLinePre ++
      upperStr step.risk_level.value ++ str " " ++
      get_risk_emoji step.risk_level) = false :=
    not_marker_cons _ (by decide) _
  have hdu : stepMarker.isPrefixOf (str "   Duration: " ++
      step.expected_duration) = false := not_marker_cons _ (by decide) _
  unfold stepLines
  simp only [List.cons_append]
  rw [parseStepsLines_nil_cons, parseStepsLines_marker _ _ hpre,
    parseStepsLines_skip_cons _ _ hsv, parseStepsLines_skip_cons _ _ htl,
    parseStepsLines_skip_cons _ _ hrk, parseStepsLines_skip_cons _ _ hdu]
  congr 1
  · rw [hnum]
    exact congrArg (Prod.mk step.step_number)
      (parseRiskLine_value step.risk_level)
  · refine parse_skip _ _ ?_
    intro l hl
    rcases List.mem_append.mp hl with hl | hl
    · rcases List.mem_append.mp hl with hl | hl
      · rcases List.mem_append.mp hl with hl | hl
        · rcases mem_of_ite hl with hl | hl
          · exact absurd hl (List.not_mem_nil l)
          · simp only [List.mem_cons, List.not_mem_nil, or_false] at hl
            subst hl
            exact not_marker_cons _ (by decide) _
        · rcases mem_of_ite hl with hl | hl
          · exact absurd hl (List.not_mem_nil l)
          · rcases List.mem_cons.mp hl with rfl | hl
            · exact not_marker_cons _ (by decide) _
            · obtain ⟨kv, hkv, rfl⟩ := List.mem_map.mp hl
              exact not_marker_cons _ (by decide) _
      · rcases mem_of_ite hl with hl | hl
        · simp only [List.mem_cons, List.not_mem_nil, or_false] at hl
          subst hl
          exact not_marker_cons _ (by decide) _
        · exact absurd hl (List.not_mem_nil l)
    · rcases mem_of_ite hl with hl | hl
      · exact absurd hl (List.not_mem_nil l)
      · simp only [List.mem_cons, List.not_mem_nil, or_false] at hl
        subst hl
        exact not_marker_cons _ (by decide) _

theorem parse_flat (steps : List TaskStep) (rest : List Str) :
    parseStepsLines (steps.flatMap stepLines ++ rest) =
      steps.map (fun s => (s.step_number, some s.risk_level)) ++
        parseStepsLines rest := by
  induction steps with
  | nil => simp
  | cons s t ih =>
    rw [List.flatMap_cons, List.append_assoc, parse_stepLines, ih]
    simp

theorem steps_flatMap_lines (L : List TaskStep)
    (h : ∀ s ∈ L, noNL s.description ∧ noNL s.server_name ∧
      noNL s.tool_name ∧ noNL s.expected_duration ∧
      (∀ kv ∈ s.arguments, noNL kv.1 ∧ noNL (pyValStr kv.2)) ∧
      (∀ c ∈ s.compliance_checks, noNL c)) :
    (L.flatMap stepFragments).flatMap (splitOnChar '\n') =
      L.flatMap stepLines := by
  induction L with
  | nil => rfl
  | cons s t ih =>
    rw [List.flatMap_cons, List.flatMap_cons, List.flatMap_append]
    obtain ⟨h1, h2, h3, h4, h5, h6⟩ := h s (List.mem_cons_self s t)
    rw [stepFragments_lines s h1 h2 h3 h4 h5 h6,
      ih fun x hx => h x (List.mem_cons_of_mem s hx)]

theorem headerLines_not_marker (plan : TaskPlan) :
    ∀ l ∈ headerLines plan, stepMarker.isPrefixOf l = false := by
  intro l hl
  unfold headerLines at hl
  rcases List.mem_append.mp hl with hl | hl
  · rcases List.mem_append.mp hl with hl | hl
    · rcases List.mem_append.mp hl with hl | hl
      · rcases List.mem_append.mp hl with hl | hl
        · rcases List.mem_append.mp hl with hl | hl
          · rcases List.mem_append.mp hl with hl | hl
            · simp only [List.mem_cons, List.not_mem_nil, or_false] at hl
              rcases hl with rfl | rfl | rfl | rfl | rfl | rfl | rfl | rfl | rfl
              · decide
              · exact not_marker_cons _ (by decide) _
              · decide
              · decide
              · exact not_marker_cons _ (by decide) _
              · exact not_marker_cons _ (by decide) _
              · exact not_marker_cons _ (by decide) _
              · exact not_marker_cons _ (by decide) _
              · exact not_marker_cons _ (by decide) _
            · rcases mem_of_ite hl with hl | hl
              · simp only [List.mem_cons, List.not_mem_nil, or_false] at hl
                rcases hl with rfl | rfl
                · decide
                · decide
              · exact absurd hl (List.not_mem_nil l)
          · simp only [List.mem_cons, List.not_mem_nil, or_false] at hl
            rcases hl with rfl | rfl
            · decide
            · decide
        · obtain ⟨r, hr, rfl⟩ := List.mem_map.mp hl
          exact not_marker_cons _ (by decide) _
      · simp only [List.mem_cons, List.not_mem_nil, or_false] at hl
        rcases hl with rfl | rfl | rfl | rfl | rfl
        · decide
        · decide
        · exact not_marker_cons _ (by decide) _
        · decide
        · decide
    · obtain ⟨c, hc, rfl⟩ := List.mem_map.mp hl
      exact not_marker_cons _ (by decide) _
  · simp only [List.mem_cons, List.not_mem_nil, or_false] at hl
    rcases hl with rfl | rfl | rfl | rfl | rfl | rfl | rfl
    · decide
    · decide
    · exact not_marker_cons _ (by decide) _
    · decide
    · decide
    · decide
    · decide

/-- C9: parsing the plan display recovers each step's ordinal and its risk
classification, in order, provided every rendered string field of the plan
is newline-free (the counterexample shows the round trip breaks when a
field carries a newline). -/
theorem format_plan_display_roundtrip (plan : TaskPlan)
    (h : planNoNewlines plan) :
    parse_plan_display (format_plan_for_display plan) =
      plan.steps.map (fun s => (s.step_number, some s.risk_level)) := by
  obtain ⟨hpid, htd, hed, hcr, hrs, hsc, hfh, hsteps⟩ := h
  have hne : headerFragments plan ++ plan.steps.flatMap stepFragments ++
      footerFragments ≠ [] := by
    intro hc
    have hlen := congrArg List.length hc
    simp [footerFragments, List.length_append] at hlen
  have hlines : splitOnChar '\n' (format_plan_for_display plan) =
      headerLines plan ++ plan.steps.flatMap stepLines ++ footerLines := by
    unfold format_plan_for_display
    rw [split_joinChar '\n' _ hne]
    rw [List.flatMap_append, List.flatMap_append]
    rw [headerFragments_lines plan hpid htd hed hcr hrs hsc hfh,
      footerFragments_lines, steps_flatMap_lines plan.steps hsteps]
  unfold parse_plan_display
  rw [hlines, List.append_assoc,
    parse_skip _ _ (headerLines_not_marker plan), parse_flat,
    show parseStepsLines footerLines = [] from by decide]
  simp

/-- C9 witness: the round trip holds on the concrete two-step execution
fixture plan. -/
theorem format_plan_display_roundtrip_witness :
    parse_plan_display (format_plan_for_display fixturePlanExec) =
      fixturePlanExec.steps.map
        (fun s => (s.step_number, some s.risk_level)) :=
  format_plan_display_roundtrip fixturePlanExec (by decide)

/-- C9 counterexample: with a step description carrying newlines, the
rendered display embeds a forged step block and parsing it does not return
the plan's own step fields, refuting the unconditional round-trip claim. -/
theorem display_roundtrip_fails_on_newlines :
    parse_plan_display (format_plan_for_display evilPlan) ≠
      evilPlan.steps.map (fun s => (s.step_number, some s.risk_level)) := by
  decide

theorem execute_step_step_number (o : OrchPermState) (b : CallBehavior)
    (step : TaskStep) :
    (execute_step o b step).step_number = step.step_number := by
  unfold execute_step
  by_cases hp : (check_tool_permission o step.server_name step.tool_name).1
  · rcases b with msg | r
    · simp [hp]
    · cases hr : r.error <;> simp [hp, hr]
  · simp [hp]

theorem execute_step_error_of_failure (o : OrchPermState) (b : CallBehavior)
    (step : TaskStep)
    (hb : ∀ r, b = .returns r → ∀ e, r.error = some e → ∃ s, e = .estr s)
    (hfail : (execute_step o b step).success = false) :
    ∃ s, (execute_step o b step).error = some (.estr s) := by
  by_cases hp : (check_tool_permission o step.server_name step.tool_name).1
  · rcases b with msg | r
    · exact ⟨msg, by simp [execute_step, hp]⟩
    · cases hr : r.error with
      | none => simp [execute_step, hp, hr] at hfail
      | some e =>
        obtain ⟨s, hs⟩ := hb r rfl e hr
        subst hs
        exact ⟨s, by simp [execute_step, hp, hr]⟩
  · exact ⟨str "Permission denied: " ++
      (check_tool_permission o step.server_name step.tool_name).2,
      by simp [execute_step, hp]⟩

theorem takeThroughFail_leading (l : List ExecutionResult) :
    takeThroughFail l <+: l := by
  induction l with
  | nil => exact List.nil_prefix
  | cons r rest ih =>
    cases hr : r.success with
    | true =>
      have he : takeThroughFail (r :: rest) = r :: takeThroughFail rest := by
        simp [takeThroughFail, hr]
      rw [he]
      exact List.cons_prefix_cons.mpr ⟨rfl, ih⟩
    | false =>
      have he : takeThroughFail (r :: rest) = [r] := by
        simp [takeThroughFail, hr]
      rw [he]
      exact List.cons_prefix_cons.mpr ⟨rfl, List.nil_prefix⟩

theorem attempts_map_step_number (o : OrchPermState)
    (outcomes : Nat → CallBehavior) :
    ∀ (steps : List TaskStep) (i : Nat),
      ((withIdx i steps).map
        (fun pr => execute_step o (outcomes pr.1) pr.2)).map
          (fun r => r.step_number) =
        steps.map (fun s => s.step_number) := by
  intro steps
  induction steps with
  | nil => intro i; rfl
  | cons s rest ih =>
    intro i
    simp [withIdx, execute_step_step_number, ih]

theorem execLoop_spec (o : OrchPermState) (outcomes : Nat → CallBehavior)
    (backup : Option BackupState) (now : Nat)
    (herrs : ∀ j r, outcomes j = .returns r →
      ∀ e, r.error = some e → ∃ s, e = .estr s)
    (hbk : ∀ bs, backup = some bs →
      bs.items_backed_up = bs.backup_locations.length) :
    ∀ (steps : List TaskStep) (i : Nat) (results : ExecResults),
      ∃ final, execLoop o outcomes backup now steps i results = some final ∧
        final.step_results =
          results.step_results ++ loopLog o outcomes i steps ∧
        final.steps_failed =
          results.steps_failed + countFailures (loopLog o outcomes i steps) ∧
        final.steps_completed = results.steps_completed +
          ((loopLog o outcomes i steps).filter
            (fun r => r.success)).length ∧
        (countFailures (loopLog o outcomes i steps) = 0 →
          final.status = results.status ∧
          final.rollback = results.rollback ∧
          final.rollback_performed = results.rollback_performed) ∧
        (countFailures (loopLog o outcomes i steps) ≠ 0 →
          final.status = str "failed" ∧ final.rollback.isSome = true ∧
          final.rollback_performed = true) := by
  intro steps
  induction steps with
  | nil =>
    intro i results
    refine ⟨results, rfl, ?_, ?_, ?_, ?_, ?_⟩ <;>
      simp [loopLog, withIdx, takeThroughFail, countFailures]
  | cons step rest ih =>
    intro i results
    cases hsucc : (execute_step o (outcomes i) step).success with
    | true =>
      have hlog : loopLog o outcomes i (step :: rest) =
          execute_step o (outcomes i) step :: loopLog o outcomes (i+1) rest := by
        simp [loopLog, withIdx, takeThroughFail, hsucc]
      obtain ⟨final, hrun, hsr, hsf, hsc, hok, hfail⟩ :=
        ih (i+1) { results with
          step_results := results.step_results ++
            [execute_step o (outcomes i) step],
          steps_completed := results.steps_completed + 1 }
      refine ⟨final, ?_, ?_, ?_, ?_, ?_, ?_⟩
      · simp only [execLoop, hsucc]
        exact hrun
      · rw [hlog]
        simp only [hsr]
        simp
      · rw [hlog]
        simp only [hsf]
        simp [countFailures, hsucc]
      · rw [hlog]
        simp only [hsc]
        simp [hsucc]
        omega
      · rw [hlog]
        intro h0
        have h0' : countFailures (loopLog o outcomes (i+1) rest) = 0 := by
          simpa [countFailures, hsucc] using h0
        exact hok h0'
      · rw [hlog]
        intro h0
        have h0' : countFailures (loopLog o outcomes (i+1) rest) ≠ 0 := by
          simpa [countFailures, hsucc] using h0
        exact hfail h0'
    | false =>
      have hlog : loopLog o outcomes i (step :: rest) =
          [execute_step o (outcomes i) step] := by
        simp [loopLog, withIdx, takeThroughFail, hsucc]
      obtain ⟨s, hs⟩ := execute_step_error_of_failure o (outcomes i) step
        (herrs i) hsucc
      obtain ⟨report, hrep, hnames⟩ := handle_failure_total step
        (execute_step o (outcomes i) step) backup now s hs hbk
      refine ⟨{ results with
          step_results := results.step_results ++
            [execute_step o (outcomes i) step],
          steps_failed := results.steps_failed + 1,
          status := str "failed",
          rollback := some report,
          rollback_performed := true }, ?_, ?_, ?_, ?_, ?_, ?_⟩
      · simp only [execLoop, hsucc]
        rw [List.getLast?_concat, hrep]
        simp
      · simp [hlog]
      · simp [hlog, countFailures, hsucc]
      · simp [hlog, hsucc]
      · simp [hlog, countFailures, hsucc]
      · simp [hlog]

/-- C1 amended: with approval granted, and every step outcome's error
payload a string (as all orchestrator-normalized permission and transport
errors are), the executor's log is exactly one result per attempted step
in plan order, cut off at (and including) the first failed step; the
returned status is `completed` exactly when zero steps failed, and on
failure the status is `failed` with the rollback report attached;
attempted step numbers ascend strictly whenever the plan's do.  Without
the string-error proviso the executor can raise and return nothing (see
the counterexample). -/
theorem execute_plan_log_and_status (o : OrchPermState) (plan : TaskPlan)
    (outcomes : Nat → CallBehavior) (now : Nat)
    (herrs : ∀ j r, outcomes j = .returns r →
      ∀ e, r.error = some e → ∃ s, e = .estr s) :
    ∃ results, execute_plan o plan outcomes now true = some (.ran results) ∧
      results.step_results =
        takeThroughFail (attemptResults o outcomes plan.steps) ∧
      results.steps_failed = countFailures results.step_results ∧
      (results.status = str "completed" ↔
        countFailures results.step_results = 0) ∧
      (countFailures results.step_results ≠ 0 →
        results.status = str "failed" ∧ results.rollback.isSome = true ∧
        results.rollback_performed = true) ∧
      (List.Chain' (fun a b => a < b)
          (plan.steps.map (fun s => s.step_number)) →
        List.Chain' (fun a b => a < b)
          (results.step_results.map (fun r => r.step_number))) := by
  have hbk : ∀ bs, some (create_pre_deployment_backup plan now) = some bs →
      bs.items_backed_up = bs.backup_locations.length := by
    intro bs h
    injection h with h1
    subst h1
    rfl
  obtain ⟨final, hrun, hsr, hsf, hsc, hok, hfail⟩ :=
    execLoop_spec o outcomes (some (create_pre_deployment_backup plan now))
      now herrs hbk plan.steps 0
      { plan_id := plan.plan_id, status := str "in_progress",
        steps_completed := 0, steps_failed := 0, step_results := [],
        backup_created := (create_pre_deployment_backup plan now).success,
        backup_details := create_pre_deployment_backup plan now,
        rollback := none, rollback_performed := false }
  have hLattempt : loopLog o outcomes 0 plan.steps =
      takeThroughFail (attemptResults o outcomes plan.steps) := rfl
  have hsr' : final.step_results =
      takeThroughFail (attemptResults o outcomes plan.steps) := by
    rw [hsr, hLattempt]
    simp
  have hcount : countFailures final.step_results =
      countFailures (loopLog o outcomes 0 plan.steps) := by
    rw [hsr]
    simp [hLattempt]
  have hchain :
      List.Chain' (fun a b => a < b)
        (plan.steps.map (fun s => s.step_number)) →
      List.Chain' (fun a b => a < b)
        (final.step_results.map (fun r => r.step_number)) := by
    intro hp
    have hpre : final.step_results.map (fun r => r.step_number) <+:
        plan.steps.map (fun s => s.step_number) := by
      rw [hsr']
      have h1 := (takeThroughFail_leading
        (attemptResults o outcomes plan.steps)).map
          (fun r => r.step_number)
      rw [attemptResults, attempts_map_step_number] at h1
      exact h1
    exact hp.sublist hpre.sublist
  by_cases h0 : countFailures (loopLog o outcomes 0 plan.steps) = 0
  · have hzero : final.steps_failed = 0 := by rw [hsf, h0]
    refine ⟨{ final with status := str "completed" }, ?_, ?_, ?_, ?_, ?_, ?_⟩
    · simp only [execute_plan, Bool.not_true]
      rw [hrun]
      simp [hzero]
    · simpa using hsr'
    · simp [hzero, hcount, h0]
    · simp [hcount, h0]
    · intro hne
      rw [hcount, h0] at hne
      exact absurd rfl hne
    · intro hp
      simpa using hchain hp
  · obtain ⟨hst, hrb, hrbp⟩ := hfail h0
    have hnz : final.steps_failed ≠ 0 := by
      rw [hsf]
      omega
    refine ⟨final, ?_, hsr', ?_, ?_, ?_, hchain⟩
    · simp only [execute_plan, Bool.not_true]
      rw [hrun]
      simp [hnz]
    · rw [hsf, hcount]
      simp
    · rw [hcount, hst]
      constructor
      · intro hc
        exact absurd hc (by decide)
      · intro hc
        exact absurd hc h0
    · intro _
      exact ⟨hst, hrb, hrbp⟩

/-- Concrete instantiation of `execute_plan_log_and_status`: a two-step plan
whose every tool call fails with a string transport error. -/
theorem execute_plan_log_and_status_witness :
    ∃ results, execute_plan fixtureOrch fixturePlanExec fixtureOutcomes 0
        true = some (.ran results) ∧
      results.step_results = takeThroughFail
        (attemptResults fixtureOrch fixtureOutcomes fixturePlanExec.steps) ∧
      results.steps_failed = countFailures results.step_results ∧
      (results.status = str "completed" ↔
        countFailures results.step_results = 0) ∧
      (countFailures results.step_results ≠ 0 →
        results.status = str "failed" ∧ results.rollback.isSome = true ∧
        results.rollback_performed = true) ∧
      (List.Chain' (fun a b => a < b)
          (fixturePlanExec.steps.map (fun s => s.step_number)) →
        List.Chain' (fun a b => a < b)
          (results.step_results.map (fun r => r.step_number))) := by
  refine execute_plan_log_and_status fixtureOrch fixturePlanExec
    fixtureOutcomes 0 ?_
  intro j r h e he
  simp only [fixtureOutcomes] at h
  injection h with h1
  subst h1
  injection he with h2
  exact ⟨str "connection timeout", h2.symm⟩

/-- C1 counterexample: with approval granted, a two-step plan whose every
tool call fails with a JSON-RPC error object (a non-string error payload,
the normal JSON-RPC error shape) makes the root-cause phase call
`.lower()` on a dict, so the executor raises: `execute_plan` returns no
step log, no status, and no rollback, refuting the claim over unrestricted
step outcomes. -/
theorem execute_plan_raises_on_error_object :
    execute_plan fixtureOrch fixturePlanExec fixtureObjOutcomes 0 true =
      none := by
  decide

/-- C7 counterexample: a plan execution whose failed step records the JSON
`null` error the provider returned crashes inside the failback controller
(the root-cause phase calls `.lower()` on a non-string), so the executor
run raises instead of producing a phase report. -/
theorem failback_raises_on_null_error :
    execute_plan fixtureOrch fixturePlanExec fixtureNullOutcomes 0 true =
      none := by
  decide

/-- C7 amended: for every failed step and every execution state reaching the
failback controller whose recorded error is a string (as all
orchestrator-normalized permission and transport errors are) and whose
backup record is internally consistent, the controller returns a report
with exactly eight phase records in the fixed order — traffic protection,
rollback, stability verification, resource cleanup, root-cause
classification, fix recommendations, log archival, team notification —
without raising; a non-string error payload instead makes the root-cause
phase raise. -/
theorem failback_eight_phases (failed_step : TaskStep)
    (lastR : ExecutionResult) (backup : Option BackupState) (now : Nat)
    (es : Str) (herr : lastR.error = some (.estr es))
    (hbk : ∀ bs, backup = some bs →
      bs.items_backed_up = bs.backup_locations.length) :
    ∃ report,
      handle_failure_comprehensive failed_step (some lastR) backup now =
        some report ∧
      report.phases.map (fun ph => ph.phase) =
        [str "Traffic Protection", str "Rollback to Previous Version",
         str "System Stability Verification", str "Resource Cleanup",
         str "Root Cause Analysis", str "Fix Recommendations",
         str "Log Archival", str "Team Notification"] :=
  handle_failure_total failed_step lastR backup now es herr hbk

/-- Concrete instantiation of `failback_eight_phases`: a failed deploy step
with a string error and no backup yields the eight ordered phases. -/
theorem failback_eight_phases_witness :
    ∃ report,
      handle_failure_comprehensive fixtureStep2 (some fixtureFailedResult)
        none 0 = some report ∧
      report.phases.map (fun ph => ph.phase) =
        [str "Traffic Protection", str "Rollback to Previous Version",
         str "System Stability Verification", str "Resource Cleanup",
         str "Root Cause Analysis", str "Fix Recommendations",
         str "Log Archival", str "Team Notification"] := by
  exact failback_eight_phases fixtureStep2 fixtureFailedResult none 0
    (str "connection timeout") (by decide)
    (fun bs h => absurd h (by simp))

/-- C8: a successful discovery against a provider with fixed replies is a
fixed point — running it again returns the identical capability set and
leaves the cache and registry unchanged; the new capability set wholesale
replaces whatever the cache previously held for that provider; and an
enumeration reply that fails or omits its category yields the empty list
for that category rather than a fatal error. -/
theorem discover_idempotent_and_replaces
    (servers : List (Str × ServerEntry)) (cache : List (Str × Capabilities))
    (name : Str) (p : ProviderResponses) (caps : Capabilities)
    (cache1 : List (Str × Capabilities)) (servers1 : List (Str × ServerEntry))
    (h1 : discover_server_capabilities servers cache name p =
      .ok caps cache1 servers1) :
    discover_server_capabilities servers1 cache1 name p =
      .ok caps cache1 servers1 ∧
    alookup cache1 name = some caps ∧
    (p.tools_resp = .absent → caps.tools = []) ∧
    (p.resources_resp = .absent → caps.resources = []) ∧
    (p.prompts_resp = .absent → caps.prompts = []) := by
  simp only [discover_server_capabilities] at h1
  by_cases hreg : (alookup servers name).isNone
  · rw [if_pos hreg] at h1; simp at h1
  · rw [if_neg hreg] at h1
    cases hi : p.init_error with
    | some e => rw [hi] at h1; simp at h1
    | none =>
      rw [hi] at h1
      cases hT : (capsOfResponses p).tools.mapM
          (fun t => t.name.map (fun n => (n, t))) with
      | none => rw [hT] at h1; simp at h1
      | some tool_dict =>
        cases hR : (capsOfResponses p).resources.mapM (fun r => r.uri) with
        | none => rw [hT, hR] at h1; simp at h1
        | some res_uris =>
          cases hP : (capsOfResponses p).prompts.mapM (fun pr => pr.name) with
          | none => rw [hT, hR, hP] at h1; simp at h1
          | some prompt_names =>
            rw [hT, hR, hP] at h1
            injection h1 with hcaps hcache hservers
            subst hcaps
            subst hcache
            subst hservers
            refine ⟨?_, alookup_dset _ _ _, ?_, ?_, ?_⟩
            · simp only [discover_server_capabilities]
              have hreg2 : ¬(alookup (aupdate servers name
                  (fun s => { s with
                      tools := tool_dict, resources := res_uris,
                      prompts := prompt_names })) name).isNone := by
                rw [alookup_aupdate]
                cases hx : alookup servers name with
                | none => rw [hx] at hreg; simp at hreg
                | some a => simp
              rw [if_neg hreg2, hi, hT, hR, hP, dset_dset]
              exact congrArg (DiscoverOutcome.ok (capsOfResponses p)
                  (dset cache name (capsOfResponses p)))
                (by rw [aupdate_aupdate])
            · intro h; simp [capsOfResponses, h]
            · intro h; simp [capsOfResponses, h]
            · intro h; simp [capsOfResponses, h]

/-- Concrete instantiation of `discover_idempotent_and_replaces`: discovery
against a provider that advertises one tool and omits the resources
category; re-discovery returns the same set and state, and the resources
list is empty. -/
theorem discover_idempotent_and_replaces_witness :
    discover_server_capabilities fixtureDiscServers fixtureDiscCache
      (str "jenkins") fixtureResponses =
      .ok fixtureDiscCaps fixtureDiscCache fixtureDiscServers ∧
    alookup fixtureDiscCache (str "jenkins") = some fixtureDiscCaps ∧
    fixtureDiscCaps.resources = [] := by
  have h1 : discover_server_capabilities fixtureServers [] (str "jenkins")
      fixtureResponses =
      .ok fixtureDiscCaps fixtureDiscCache fixtureDiscServers := by decide
  have h := discover_idempotent_and_replaces fixtureServers [] (str "jenkins")
    fixtureResponses fixtureDiscCaps fixtureDiscCache fixtureDiscServers h1
  exact ⟨h.1, h.2.1, h.2.2.2.1 (by decide)⟩

/-- C10: for any role other than `"user"` or `"admin"`, `set_role` returns
the validation error message and leaves the whole role state — active role,
in-memory configuration, and persisted configuration file — unchanged. -/
theorem set_role_invalid_unchanged (st : RoleState) (role : Str)
    (hu : role ≠ str "user") (ha : role ≠ str "admin") :
    set_role st role = .ok st (str "Error: Invalid role \x27" ++ role ++
      str "\x27. Valid roles are: user, admin") := by
  have hnotin : role ∉ [str "user", str "admin"] := by simp [hu, ha]
  simp [set_role, hnotin]

/-- Concrete instantiation of `set_role_invalid_unchanged`: switching to the
role `"root"` is rejected and mutates nothing. -/
theorem set_role_invalid_unchanged_witness :
    set_role fixtureRoleState (str "root") =
      .ok fixtureRoleState (str "Error: Invalid role \x27" ++ str "root" ++
        str "\x27. Valid roles are: user, admin") := by
  exact set_role_invalid_unchanged fixtureRoleState (str "root")
    (by decide) (by decide)

end OpsBot
